import Mathlib

/-!
# ESP32 TWAI heartbeat / health / recovery controller

A shallow embedding of `src/main.cpp`.  The sketch keeps its state in global
`uint32_t` variables and talks to the TWAI driver, to `millis()` and to the
serial console.  Here

* the globals become the fields of `State`; every `uint32_t` is a `Nat` below
  `2^32` and every `uint32_t` operation is reduced modulo `2^32` explicitly;
* every value the environment hands back (driver return codes, alert words,
  status snapshots, `millis()` readings) is an explicit argument of the
  function that reads it;
* every output (console record, call into the driver) is appended to
  `State.trace`.

The `TWAI_ALERT_*` masks come from the driver header, which is not part of the
repository; they are the parameter `K : AlertMasks` of every function that
tests an alert word.
-/

namespace CanBroadcaster

/-! ## Machine arithmetic -/

/-- Reduction of a natural number to a `uint32_t` value. -/
def wrap32 (n : Nat) : Nat := n % 4294967296

/-- The `uint32_t` difference `a - b` of two `uint32_t` values. -/
def sub32 (a b : Nat) : Nat := (a + 4294967296 - b) % 4294967296

/-! ## Driver types -/

/-- Return codes of the driver calls, as far as the sketch tells them apart:
`ESP_OK`, `ESP_ERR_TIMEOUT`, and any other code. -/
inductive esp_err_t where
  | ESP_OK
  | ESP_ERR_TIMEOUT
  | other (code : Int)
  deriving DecidableEq, Repr

/-- Controller states reported in a status snapshot. -/
inductive twai_state_t where
  | TWAI_STATE_STOPPED
  | TWAI_STATE_RUNNING
  | TWAI_STATE_BUS_OFF
  | TWAI_STATE_RECOVERING
  deriving DecidableEq, Repr

/-- The fields of a status snapshot that the sketch reads. -/
structure twai_status_info_t where
  state : twai_state_t
  tx_failed_count : Nat
  bus_error_count : Nat
  tx_error_counter : Nat
  rx_error_counter : Nat
  msgs_to_tx : Nat
  msgs_to_rx : Nat
  deriving DecidableEq, Repr

/-- The fields of a frame that the sketch reads or writes. -/
structure twai_message_t where
  identifier : Nat
  data_length_code : Nat
  data : List Nat
  extd : Bool
  rtr : Bool
  deriving DecidableEq, Repr

/-- The eleven `TWAI_ALERT_*` masks the sketch tests.  Their values are defined
by the driver header. -/
structure AlertMasks where
  TWAI_ALERT_TX_SUCCESS : Nat
  TWAI_ALERT_TX_FAILED : Nat
  TWAI_ALERT_BUS_OFF : Nat
  TWAI_ALERT_BUS_RECOVERED : Nat
  TWAI_ALERT_ERR_ACTIVE : Nat
  TWAI_ALERT_ERR_PASS : Nat
  TWAI_ALERT_ARB_LOST : Nat
  TWAI_ALERT_RX_DATA : Nat
  TWAI_ALERT_RX_QUEUE_FULL : Nat
  TWAI_ALERT_RX_FIFO_OVERRUN : Nat
  TWAI_ALERT_BUS_ERROR : Nat

/-- Mask values as in the ESP-IDF header `driver/twai.h`, one distinct bit per
flag.  They are used only where a concrete alert word is evaluated; every
statement with a parameter `K` holds for all mask values. -/
def idfMasks : AlertMasks where
  TWAI_ALERT_TX_SUCCESS := 0x2
  TWAI_ALERT_RX_DATA := 0x4
  TWAI_ALERT_ERR_ACTIVE := 0x10
  TWAI_ALERT_BUS_RECOVERED := 0x40
  TWAI_ALERT_ARB_LOST := 0x80
  TWAI_ALERT_BUS_ERROR := 0x200
  TWAI_ALERT_TX_FAILED := 0x400
  TWAI_ALERT_RX_QUEUE_FULL := 0x800
  TWAI_ALERT_ERR_PASS := 0x1000
  TWAI_ALERT_BUS_OFF := 0x2000
  TWAI_ALERT_RX_FIFO_OVERRUN := 0x4000

/-! ## Observable outputs -/

/-- The flag names `dumpAlerts` prints. -/
inductive AlertFlag where
  | TX_SUCCESS | TX_FAILED | BUS_OFF | BUS_RECOVERED | ERR_ACTIVE | ERR_PASS
  | ARB_LOST | RX_DATA | RX_Q_FULL | RX_FIFO_OVR | BUS_ERROR
  deriving DecidableEq, Repr

/-- The tag `printStatus` is called with. -/
inductive StatusTag where
  | start | periodic
  deriving DecidableEq, Repr

/-- One output of the sketch: a console record or a call into the driver. -/
inductive Event where
  /-- `Serial.print("[ALERT] ")` -/
  | alertHeader
  /-- `Serial.print("<FLAG> ")` inside `dumpAlerts` -/
  | alertName (flag : AlertFlag)
  /-- `Serial.println()` closing an alert record -/
  | alertEnd
  /-- `[RECOVERY] BUS_OFF -> initiating recovery` -/
  | recoveryStart
  /-- the call `twai_initiate_recovery()` -/
  | twai_initiate_recovery
  /-- `[RECOVERY] Recovered` -/
  | recovered
  /-- the call `twai_transmit(&m, ...)` -/
  | twai_transmit (m : twai_message_t)
  /-- `[TX] queue timeout (likely no ACK or bus busy)` -/
  | txTimeout
  /-- `[TX] error=<code>` -/
  | txError (code : Int)
  /-- one `[RX] ...` record -/
  | rxFrame (m : twai_message_t)
  /-- one `[HEALTH] ...` record -/
  | health (tx ack txFail busErr busOff : Nat)
  /-- one `[STATUS] ...` record -/
  | status (tag : StatusTag) (st : twai_status_info_t)
  /-- `[TWAI] Install ...` -/
  | installBanner
  /-- `[TWAI] install FAIL` -/
  | installFail
  /-- `[TWAI] start FAIL` -/
  | startFail
  /-- the call `twai_driver_uninstall()` -/
  | twai_driver_uninstall
  /-- `[TWAI] started` -/
  | started
  deriving DecidableEq, Repr

/-! ## Program state -/

/-- `HEARTBEAT_ID` -/
def HEARTBEAT_ID : Nat := 0x123

/-- `HEARTBEAT_MS`, the transmit period. -/
def HEARTBEAT_MS : Nat := 200

/-- The globals of the sketch, the function-static `next` of
`printHealthEvery`, and the outputs produced so far. -/
structure State where
  lastHb : Nat
  txCount : Nat
  ackCount : Nat
  txFailCount : Nat
  busErrCount : Nat
  busOffCount : Nat
  next : Nat
  trace : List Event
  deriving DecidableEq, Repr

/-- The state at program start: every global is zero, nothing printed. -/
def State.init : State :=
  { lastHb := 0, txCount := 0, ackCount := 0, txFailCount := 0, busErrCount := 0,
    busOffCount := 0, next := 0, trace := [] }

/-- Append one output to the trace. -/
def State.emit (s : State) (e : Event) : State :=
  { s with trace := s.trace ++ [e] }

/-- Every counter is a `uint32_t` value. -/
def State.WF (s : State) : Prop :=
  s.txCount < 4294967296 ∧ s.ackCount < 4294967296 ∧ s.txFailCount < 4294967296 ∧
  s.busErrCount < 4294967296 ∧ s.busOffCount < 4294967296

instance (s : State) : Decidable s.WF := by
  unfold State.WF; infer_instance

/-! ## Environment inputs -/

/-- What one call of `twai_get_status_info` returns. -/
structure StatusRead where
  err : esp_err_t
  st : twai_status_info_t
  deriving DecidableEq, Repr

/-- What the environment returns during one iteration of the polling loop of
`recoverIfBusOff`: the `millis()` reading of the loop test, then the return
code and alert word of `twai_read_alerts` (read only when the test passes). -/
structure Poll where
  now : Nat
  err : esp_err_t
  a : Nat
  deriving DecidableEq, Repr

/-- What the environment returns to one call of `recoverIfBusOff`: the status
snapshot, the `millis()` reading the deadline is computed from, and the
iterations of the polling loop. -/
structure RecoveryEnv where
  status : StatusRead
  T : Nat
  polls : List Poll
  deriving DecidableEq, Repr

/-! ## The functions of `main.cpp` -/

/-- `printStatus(tag)`: one status record when the snapshot can be read. -/
def printStatus (tag : StatusTag) (r : StatusRead) (s : State) : State :=
  if r.err = esp_err_t.ESP_OK then s.emit (Event.status tag r.st) else s

/-- One line `if (a & mask) { ... }` of `dumpAlerts`. -/
def onFlag (a mask : Nat) (f : State → State) (s : State) : State :=
  if a &&& mask ≠ 0 then f s else s

/-- `dumpAlerts(a)`: nothing for an empty alert word; otherwise one alert
record naming every flag set, with `ackCount`, `txFailCount`, `busOffCount`
and `busErrCount` incremented for `TX_SUCCESS`, `TX_FAILED`, `BUS_OFF` and
`BUS_ERROR`. -/
def dumpAlerts (K : AlertMasks) (a : Nat) (s : State) : State :=
  if a = 0 then s else
  let s := s.emit Event.alertHeader
  let s := onFlag a K.TWAI_ALERT_TX_SUCCESS (fun s =>
    { s.emit (Event.alertName AlertFlag.TX_SUCCESS) with ackCount := wrap32 (s.ackCount + 1) }) s
  let s := onFlag a K.TWAI_ALERT_TX_FAILED (fun s =>
    { s.emit (Event.alertName AlertFlag.TX_FAILED) with txFailCount := wrap32 (s.txFailCount + 1) }) s
  let s := onFlag a K.TWAI_ALERT_BUS_OFF (fun s =>
    { s.emit (Event.alertName AlertFlag.BUS_OFF) with busOffCount := wrap32 (s.busOffCount + 1) }) s
  let s := onFlag a K.TWAI_ALERT_BUS_RECOVERED (fun s => s.emit (Event.alertName AlertFlag.BUS_RECOVERED)) s
  let s := onFlag a K.TWAI_ALERT_ERR_ACTIVE (fun s => s.emit (Event.alertName AlertFlag.ERR_ACTIVE)) s
  let s := onFlag a K.TWAI_ALERT_ERR_PASS (fun s => s.emit (Event.alertName AlertFlag.ERR_PASS)) s
  let s := onFlag a K.TWAI_ALERT_ARB_LOST (fun s => s.emit (Event.alertName AlertFlag.ARB_LOST)) s
  let s := onFlag a K.TWAI_ALERT_RX_DATA (fun s => s.emit (Event.alertName AlertFlag.RX_DATA)) s
  let s := onFlag a K.TWAI_ALERT_RX_QUEUE_FULL (fun s => s.emit (Event.alertName AlertFlag.RX_Q_FULL)) s
  let s := onFlag a K.TWAI_ALERT_RX_FIFO_OVERRUN (fun s => s.emit (Event.alertName AlertFlag.RX_FIFO_OVR)) s
  let s := onFlag a K.TWAI_ALERT_BUS_ERROR (fun s =>
    { s.emit (Event.alertName AlertFlag.BUS_ERROR) with busErrCount := wrap32 (s.busErrCount + 1) }) s
  s.emit Event.alertEnd

/-- How the polling loop of `recoverIfBusOff` was left: by `break` after a
`BUS_RECOVERED` alert, by the loop test failing, or not yet (the recorded
iterations ended with the loop still running). -/
inductive LoopExit where
  | recovered | deadline | running
  deriving DecidableEq, Repr

/-- The loop `while (millis() < deadline) { ... }` of `recoverIfBusOff`, one
`Poll` per iteration. -/
def pollLoop (K : AlertMasks) (deadline : Nat) : List Poll → State → State × LoopExit
  | [], s => (s, LoopExit.running)
  | p :: ps, s =>
    if p.now < deadline then
      if p.err = esp_err_t.ESP_OK ∧ p.a ≠ 0 then
        let s := dumpAlerts K p.a s
        if p.a &&& K.TWAI_ALERT_BUS_RECOVERED ≠ 0 then
          (s.emit Event.recovered, LoopExit.recovered)
        else pollLoop K deadline ps s
      else pollLoop K deadline ps s
    else (s, LoopExit.deadline)

/-- A recovery session: its deadline and how its polling loop was left. -/
structure Session where
  deadline : Nat
  exit : LoopExit
  deriving DecidableEq, Repr

/-- `recoverIfBusOff()`: when the status snapshot can be read and reports
`BUS_OFF`, request recovery and poll alerts until `BUS_RECOVERED` or the
deadline `millis() + 1200`.  Returns the session, if one was begun. -/
def recoverIfBusOff (K : AlertMasks) (env : RecoveryEnv) (s : State) : State × Option Session :=
  if env.status.err = esp_err_t.ESP_OK ∧ env.status.st.state = twai_state_t.TWAI_STATE_BUS_OFF then
    let s := s.emit Event.recoveryStart
    let s := s.emit Event.twai_initiate_recovery
    let deadline := wrap32 (env.T + 1200)
    let r := pollLoop K deadline env.polls s
    (r.1, some { deadline := deadline, exit := r.2 })
  else (s, none)

/-- `twaiStartNormal()`: install and start the driver, then run
`recoverIfBusOff` and print the status. -/
def twaiStartNormal (K : AlertMasks) (install start : esp_err_t) (env : RecoveryEnv)
    (st : StatusRead) (s : State) : Bool × State × Option Session :=
  let s := s.emit Event.installBanner
  if install ≠ esp_err_t.ESP_OK then (false, s.emit Event.installFail, none)
  else if start ≠ esp_err_t.ESP_OK then
    (false, (s.emit Event.startFail).emit Event.twai_driver_uninstall, none)
  else
    let s := s.emit Event.started
    let r := recoverIfBusOff K env s
    (true, printStatus StatusTag.start st r.1, r.2)

/-- `txHeartbeat()`: build the heartbeat frame from the current `txCount`,
hand it to `twai_transmit`, and count it when the driver returns `ESP_OK`;
`e` is what `twai_transmit` returns. -/
def txHeartbeat (e : esp_err_t) (s : State) : Bool × State :=
  let m : twai_message_t :=
    { identifier := HEARTBEAT_ID
      data_length_code := 8
      data := [72, 66, (s.txCount >>> 24) % 256, (s.txCount >>> 16) % 256,
               (s.txCount >>> 8) % 256, s.txCount % 256, 0x25, 0x0A]
      extd := false
      rtr := false }
  let s := s.emit (Event.twai_transmit m)
  match e with
  | esp_err_t.ESP_OK => (true, { s with txCount := wrap32 (s.txCount + 1) })
  | esp_err_t.ESP_ERR_TIMEOUT => (false, s.emit Event.txTimeout)
  | esp_err_t.other code => (false, s.emit (Event.txError code))

/-- The loop of `rxDrain`: `left` iterations remain, `i` calls of
`twai_receive` have been made, `rx i` is what the next one returns. -/
def rxDrainFrom (rx : Nat → esp_err_t × twai_message_t) : Nat → Nat → State → State
  | 0, _, s => s
  | left + 1, i, s =>
    if (rx i).1 = esp_err_t.ESP_OK then rxDrainFrom rx left (i + 1) (s.emit (Event.rxFrame (rx i).2))
    else s

/-- `rxDrain(maxLoops)`: print up to `maxLoops` pending frames, stopping at the
first empty receive. -/
def rxDrain (rx : Nat → esp_err_t × twai_message_t) (maxLoops : Nat) (s : State) : State :=
  rxDrainFrom rx maxLoops 0 s

/-- `printHealthEvery(sec)`: when `millis()` has reached `next`, schedule the
next report and print the counters and the status.  `now1` and `now2` are the
two `millis()` readings. -/
def printHealthEvery (sec : Nat) (now1 now2 : Nat) (st : StatusRead) (s : State) : State :=
  if now1 < s.next then s else
  let s := { s with next := wrap32 (now2 + wrap32 (sec * 1000)) }
  let s := s.emit (Event.health s.txCount s.ackCount s.txFailCount s.busErrCount s.busOffCount)
  printStatus StatusTag.periodic st s

/-- The test `millis() - lastHb >= HEARTBEAT_MS` of `loop`. -/
def heartbeatDue (now : Nat) (s : State) : Bool :=
  decide (HEARTBEAT_MS ≤ sub32 now s.lastHb)

/-- Part 1 of `loop()`: the periodic heartbeat.  `now1` and `now2` are the two
`millis()` readings, `e` is what `twai_transmit` returns. -/
def loopHeartbeat (now1 now2 : Nat) (e : esp_err_t) (s : State) : State :=
  if heartbeatDue now1 s then (txHeartbeat e { s with lastHb := now2 }).2 else s

/-- Part 2 of `loop()`: read the alerts, classify a non-empty batch, and run
`recoverIfBusOff` when the batch has `BUS_OFF`. -/
def loopAlerts (K : AlertMasks) (err : esp_err_t) (a : Nat) (env : RecoveryEnv)
    (s : State) : State × Option Session :=
  if err = esp_err_t.ESP_OK ∧ a ≠ 0 then
    let s := dumpAlerts K a s
    if a &&& K.TWAI_ALERT_BUS_OFF ≠ 0 then recoverIfBusOff K env s else (s, none)
  else (s, none)

/-- What the environment returns during one pass of `loop()`. -/
structure TickEnv where
  now1 : Nat
  now2 : Nat
  tx : esp_err_t
  alertErr : esp_err_t
  a : Nat
  recovery : RecoveryEnv
  rx : Nat → esp_err_t × twai_message_t
  healthNow1 : Nat
  healthNow2 : Nat
  healthStatus : StatusRead

/-- `loop()`: heartbeat, alerts, receive drain, health report. -/
def loop (K : AlertMasks) (env : TickEnv) (s : State) : State :=
  let s := loopHeartbeat env.now1 env.now2 env.tx s
  let s := (loopAlerts K env.alertErr env.a env.recovery s).1
  let s := rxDrain env.rx 8 s
  printHealthEvery 5 env.healthNow1 env.healthNow2 env.healthStatus s

/-! ## Runs and observations

Definitions used to state properties of sequences of calls. -/

/-- The frames handed to `twai_transmit`, in order. -/
def transmitted : List Event → List twai_message_t
  | [] => []
  | Event.twai_transmit m :: es => m :: transmitted es
  | _ :: es => transmitted es

/-- A sequence of heartbeat attempts: `txHeartbeat` once per transport result. -/
def runAttempts : List esp_err_t → State → State
  | [], s => s
  | e :: es, s => runAttempts es (txHeartbeat e s).2

/-- The alert words the polling loop of `recoverIfBusOff` hands to
`dumpAlerts`, in order. -/
def classified (K : AlertMasks) (deadline : Nat) : List Poll → List Nat
  | [] => []
  | p :: ps =>
    if p.now < deadline then
      if p.err = esp_err_t.ESP_OK ∧ p.a ≠ 0 then
        if p.a &&& K.TWAI_ALERT_BUS_RECOVERED ≠ 0 then [p.a]
        else p.a :: classified K deadline ps
      else classified K deadline ps
    else []

/-- The number of alert words of a list that have the `BUS_OFF` flag. -/
def busOffBatches (K : AlertMasks) (l : List Nat) : Nat :=
  l.countP (fun a => a &&& K.TWAI_ALERT_BUS_OFF ≠ 0)

/-- One operation on the health counters: a heartbeat attempt with its
transport result, or the classification of an alert batch. -/
inductive Op where
  | attempt (e : esp_err_t)
  | classify (a : Nat)
  deriving DecidableEq, Repr

/-- An interleaving of heartbeat attempts and alert classifications. -/
def runOps (K : AlertMasks) : List Op → State → State
  | [], s => s
  | Op.attempt e :: ops, s => runOps K ops (txHeartbeat e s).2
  | Op.classify a :: ops, s => runOps K ops (dumpAlerts K a s)

/-- The number of attempts of an interleaving that returned `ESP_OK`. -/
def sentCount : List Op → Nat
  | [] => 0
  | Op.attempt e :: ops => (if e = esp_err_t.ESP_OK then 1 else 0) + sentCount ops
  | Op.classify _ :: ops => sentCount ops

/-- The number of classified batches of an interleaving that have the
`TX_SUCCESS` flag. -/
def ackedCount (K : AlertMasks) : List Op → Nat
  | [] => 0
  | Op.attempt _ :: ops => ackedCount K ops
  | Op.classify a :: ops =>
    (if a &&& K.TWAI_ALERT_TX_SUCCESS ≠ 0 then 1 else 0) + ackedCount K ops

/-- One step of the controller. -/
inductive Step where
  /-- a heartbeat attempt, `txHeartbeat` -/
  | heartbeat (e : esp_err_t)
  /-- an alert classification, `dumpAlerts` -/
  | classify (a : Nat)
  /-- a call of `recoverIfBusOff` -/
  | recovery (env : RecoveryEnv)
  /-- a receive drain, `rxDrain` -/
  | drain (rx : Nat → esp_err_t × twai_message_t) (maxLoops : Nat)
  /-- a health report, `printHealthEvery` -/
  | health (sec now1 now2 : Nat) (st : StatusRead)
  /-- one pass of `loop` -/
  | tick (env : TickEnv)

/-- The state after a step. -/
def Step.apply (K : AlertMasks) : Step → State → State
  | Step.heartbeat e, s => (txHeartbeat e s).2
  | Step.classify a, s => dumpAlerts K a s
  | Step.recovery env, s => (recoverIfBusOff K env s).1
  | Step.drain rx maxLoops, s => rxDrain rx maxLoops s
  | Step.health sec now1 now2 st, s => printHealthEvery sec now1 now2 st s
  | Step.tick env, s => loop K env s

/-- A bound on the number of times a step can increment one counter: once
per heartbeat attempt and once per alert batch read. -/
def Step.size : Step → Nat
  | Step.heartbeat _ => 1
  | Step.classify _ => 1
  | Step.recovery env => env.polls.length
  | Step.drain _ _ => 0
  | Step.health _ _ _ _ => 0
  | Step.tick env => 2 + env.recovery.polls.length

/-- A run of the controller: the steps applied in order. -/
def runSteps (K : AlertMasks) : List Step → State → State
  | [], s => s
  | st :: sts, s => runSteps K sts (st.apply K s)

/-- `incremented n x y`: the `uint32_t` counter value `y` is the value `x`
after at most `n` increments. -/
def incremented (n x y : Nat) : Prop :=
  ∃ k, k ≤ n ∧ y = wrap32 (x + k)

/-- `Adv n s t`: every health counter of `t` is the one of `s` after at most
`n` increments. -/
def Adv (n : Nat) (s t : State) : Prop :=
  incremented n s.txCount t.txCount ∧ incremented n s.ackCount t.ackCount ∧
  incremented n s.txFailCount t.txFailCount ∧ incremented n s.busErrCount t.busErrCount ∧
  incremented n s.busOffCount t.busOffCount

/-- A pass of `loop` that transmits: the time `prev` of the last `millis()`
reading of the pass before it, and the times `now1` and `now2` of its own two
readings (the test, then `lastHb = millis()`). -/
structure Sent where
  prev : Nat
  now1 : Nat
  now2 : Nat
  deriving DecidableEq, Repr

/-- The heartbeat part of `loop` run over passes, the transport returning
`ESP_OK` at once.  A pass is the pair of real times of its two `millis()`
readings, the clock reading `t % 2^32` at time `t`; the second reading is made
only by a pass that transmits.  The result lists the passes that transmit;
`prev` is the time of the last reading made before the first pass. -/
def sendTicks : Nat → List (Nat × Nat) → State → List Sent
  | _, [], _ => []
  | prev, t :: ts, s =>
    if heartbeatDue (wrap32 t.1) s then
      { prev := prev, now1 := t.1, now2 := t.2 } ::
        sendTicks t.2 ts (loopHeartbeat (wrap32 t.1) (wrap32 t.2) esp_err_t.ESP_OK s)
    else sendTicks t.1 ts (loopHeartbeat (wrap32 t.1) (wrap32 t.2) esp_err_t.ESP_OK s)

/-- A status snapshot reporting `BUS_OFF`, with all counters zero. -/
def busOffStatus : StatusRead :=
  { err := esp_err_t.ESP_OK
    st := { state := twai_state_t.TWAI_STATE_BUS_OFF, tx_failed_count := 0,
            bus_error_count := 0, tx_error_counter := 0, rx_error_counter := 0,
            msgs_to_tx := 0, msgs_to_rx := 0 } }

/-- A status snapshot reporting `RUNNING`, with all counters zero. -/
def runningStatus : StatusRead :=
  { err := esp_err_t.ESP_OK
    st := { state := twai_state_t.TWAI_STATE_RUNNING, tx_failed_count := 0,
            bus_error_count := 0, tx_error_counter := 0, rx_error_counter := 0,
            msgs_to_tx := 0, msgs_to_rx := 0 } }

/-! ## Basic facts -/

section proj
variable (s : State) (e : Event)
@[simp] theorem emit_lastHb : (s.emit e).lastHb = s.lastHb := rfl
@[simp] theorem emit_txCount : (s.emit e).txCount = s.txCount := rfl
@[simp] theorem emit_ackCount : (s.emit e).ackCount = s.ackCount := rfl
@[simp] theorem emit_txFailCount : (s.emit e).txFailCount = s.txFailCount := rfl
@[simp] theorem emit_busErrCount : (s.emit e).busErrCount = s.busErrCount := rfl
@[simp] theorem emit_busOffCount : (s.emit e).busOffCount = s.busOffCount := rfl
@[simp] theorem emit_next : (s.emit e).next = s.next := rfl
@[simp] theorem emit_trace : (s.emit e).trace = s.trace ++ [e] := rfl
end proj

theorem wrap32_lt (n : Nat) : wrap32 n < 4294967296 :=
  Nat.mod_lt _ (by norm_num)

theorem wrap32_of_lt {n : Nat} (h : n < 4294967296) : wrap32 n = n :=
  Nat.mod_eq_of_lt h

theorem wrap32_add_wrap32 (a b : Nat) : wrap32 (wrap32 a + b) = wrap32 (a + b) := by
  unfold wrap32; omega

theorem transmitted_append (xs ys : List Event) :
    transmitted (xs ++ ys) = transmitted xs ++ transmitted ys := by
  induction xs with
  | nil => rfl
  | cons x xs ih => cases x <;> simp [transmitted, ih]

/-- Any observation of the state after one `if (a & mask) { ... }` line. -/
theorem onFlag_apply {β : Type} (g : State → β) (a m : Nat) (f : State → State) (s : State) :
    g (onFlag a m f s) = if a &&& m ≠ 0 then g (f s) else g s := by
  unfold onFlag; split <;> rfl

/-! ## The heartbeat frame -/

/-- C1: whatever the transport returns, the frame `txHeartbeat` hands to
`twai_transmit` has identifier 0x123, data length 8 and data bytes
`'H','B',b3,b2,b1,b0,0x25,0x0A`, where `b3..b0` are the big-endian bytes of
the value `txCount` has before the call. -/
theorem txHeartbeat_frame (e : esp_err_t) (s : State) (h : s.txCount < 4294967296) :
    ∃ b3 b2 b1 b0 : Nat, b3 < 256 ∧ b2 < 256 ∧ b1 < 256 ∧ b0 < 256 ∧
      b3 * 2 ^ 24 + b2 * 2 ^ 16 + b1 * 2 ^ 8 + b0 = s.txCount ∧
      transmitted (txHeartbeat e s).2.trace = transmitted s.trace ++
        [{ identifier := 0x123, data_length_code := 8,
           data := ['H'.toNat, 'B'.toNat, b3, b2, b1, b0, 0x25, 0x0A],
           extd := false, rtr := false }] := by
  refine ⟨(s.txCount >>> 24) % 256, (s.txCount >>> 16) % 256, (s.txCount >>> 8) % 256,
    s.txCount % 256, Nat.mod_lt _ (by norm_num), Nat.mod_lt _ (by norm_num),
    Nat.mod_lt _ (by norm_num), Nat.mod_lt _ (by norm_num), ?_, ?_⟩
  · simp only [Nat.shiftRight_eq_div_pow]
    omega
  · cases e <;> simp [txHeartbeat, transmitted_append, transmitted, HEARTBEAT_ID]

/-! ## Alert classification -/

/-- The fields `dumpAlerts` never writes. -/
theorem dumpAlerts_untouched (K : AlertMasks) (a : Nat) (s : State) :
    (dumpAlerts K a s).lastHb = s.lastHb ∧ (dumpAlerts K a s).txCount = s.txCount ∧
    (dumpAlerts K a s).next = s.next := by
  unfold dumpAlerts
  by_cases h : a = 0
  · simp [h]
  · simp only [h, if_false, emit_lastHb, emit_txCount, emit_next, onFlag_apply State.lastHb,
      onFlag_apply State.txCount, onFlag_apply State.next, ite_self, and_self]

theorem dumpAlerts_ackCount (K : AlertMasks) (a : Nat) (s : State) :
    (dumpAlerts K a s).ackCount =
      if a &&& K.TWAI_ALERT_TX_SUCCESS ≠ 0 then wrap32 (s.ackCount + 1) else s.ackCount := by
  unfold dumpAlerts
  by_cases h : a = 0
  · simp [h]
  · simp only [h, if_false, emit_ackCount, onFlag_apply State.ackCount, ite_self]

theorem dumpAlerts_txFailCount (K : AlertMasks) (a : Nat) (s : State) :
    (dumpAlerts K a s).txFailCount =
      if a &&& K.TWAI_ALERT_TX_FAILED ≠ 0 then wrap32 (s.txFailCount + 1) else s.txFailCount := by
  unfold dumpAlerts
  by_cases h : a = 0
  · simp [h]
  · simp only [h, if_false, emit_txFailCount, onFlag_apply State.txFailCount, ite_self]

theorem dumpAlerts_busErrCount (K : AlertMasks) (a : Nat) (s : State) :
    (dumpAlerts K a s).busErrCount =
      if a &&& K.TWAI_ALERT_BUS_ERROR ≠ 0 then wrap32 (s.busErrCount + 1) else s.busErrCount := by
  unfold dumpAlerts
  by_cases h : a = 0
  · simp [h]
  · simp only [h, if_false, emit_busErrCount, onFlag_apply State.busErrCount, ite_self]

theorem dumpAlerts_busOffCount (K : AlertMasks) (a : Nat) (s : State) :
    (dumpAlerts K a s).busOffCount =
      if a &&& K.TWAI_ALERT_BUS_OFF ≠ 0 then wrap32 (s.busOffCount + 1) else s.busOffCount := by
  unfold dumpAlerts
  by_cases h : a = 0
  · simp [h]
  · simp only [h, if_false, emit_busOffCount, onFlag_apply State.busOffCount, ite_self]

/-- An output that is not part of an alert record is not produced by `dumpAlerts`. -/
theorem dumpAlerts_count (K : AlertMasks) (a : Nat) (s : State) (e : Event)
    (h1 : e ≠ Event.alertHeader) (h2 : e ≠ Event.alertEnd)
    (h3 : ∀ f, e ≠ Event.alertName f) :
    (dumpAlerts K a s).trace.count e = s.trace.count e := by
  unfold dumpAlerts
  by_cases h : a = 0
  · simp [h]
  · simp only [h, if_false, emit_trace, onFlag_apply (fun s => s.trace.count e),
      List.count_append, List.count_singleton, beq_iff_eq, Ne.symm h1, Ne.symm h2,
      Ne.symm (h3 _), if_false, Nat.add_zero, ite_self]

/-- C2 (as the code has it): for every alert word and every counter state,
`dumpAlerts` increments (as `uint32_t`, hence modulo 2^32: 4294967295 becomes 0) `ackCount` exactly once if `TX_SUCCESS` is
set and not otherwise, `txFailCount` exactly once if `TX_FAILED` is set and not
otherwise, `busErrCount` exactly once if `BUS_ERROR` is set and not otherwise.
Each result depends on the one flag only, so the other flags neither add an
increment nor suppress one; `txCount` is never written, and `busOffCount` is
written for `BUS_OFF` alone, so `BUS_RECOVERED`, `ERR_ACTIVE`, `ERR_PASS`,
`ARB_LOST`, `RX_DATA`, `RX_QUEUE_FULL` and `RX_FIFO_OVERRUN` change no
counter. -/
theorem dumpAlerts_counters (K : AlertMasks) (a : Nat) (s : State) :
    (dumpAlerts K a s).ackCount =
      (if a &&& K.TWAI_ALERT_TX_SUCCESS ≠ 0 then wrap32 (s.ackCount + 1) else s.ackCount) ∧
    (dumpAlerts K a s).txFailCount =
      (if a &&& K.TWAI_ALERT_TX_FAILED ≠ 0 then wrap32 (s.txFailCount + 1) else s.txFailCount) ∧
    (dumpAlerts K a s).busErrCount =
      (if a &&& K.TWAI_ALERT_BUS_ERROR ≠ 0 then wrap32 (s.busErrCount + 1) else s.busErrCount) ∧
    (dumpAlerts K a s).busOffCount =
      (if a &&& K.TWAI_ALERT_BUS_OFF ≠ 0 then wrap32 (s.busOffCount + 1) else s.busOffCount) ∧
    (dumpAlerts K a s).txCount = s.txCount :=
  ⟨dumpAlerts_ackCount K a s, dumpAlerts_txFailCount K a s, dumpAlerts_busErrCount K a s,
    dumpAlerts_busOffCount K a s, (dumpAlerts_untouched K a s).2.1⟩

/-- Scenario E with the masks of the driver header: one batch holding
`TX_FAILED` and `BUS_ERROR` (and nothing else) increments `txFailCount` and
`busErrCount` once each and leaves the other counters alone. -/
theorem dumpAlerts_scenarioE (s : State) :
    (dumpAlerts idfMasks (0x400 ||| 0x200) s).txFailCount = wrap32 (s.txFailCount + 1) ∧
    (dumpAlerts idfMasks (0x400 ||| 0x200) s).busErrCount = wrap32 (s.busErrCount + 1) ∧
    (dumpAlerts idfMasks (0x400 ||| 0x200) s).ackCount = s.ackCount ∧
    (dumpAlerts idfMasks (0x400 ||| 0x200) s).busOffCount = s.busOffCount ∧
    (dumpAlerts idfMasks (0x400 ||| 0x200) s).txCount = s.txCount := by
  refine ⟨?_, ?_, ?_, ?_, (dumpAlerts_untouched _ _ _).2.1⟩
  · rw [dumpAlerts_txFailCount]; rfl
  · rw [dumpAlerts_busErrCount]; rfl
  · rw [dumpAlerts_ackCount]; rfl
  · rw [dumpAlerts_busOffCount]; rfl

/-! ## Heartbeat attempts -/

theorem txHeartbeat_ok (s : State) :
    (txHeartbeat esp_err_t.ESP_OK s).2.txCount = wrap32 (s.txCount + 1) := by
  simp [txHeartbeat]

theorem txHeartbeat_not_ok (e : esp_err_t) (s : State) (h : e ≠ esp_err_t.ESP_OK) :
    (txHeartbeat e s).2.txCount = s.txCount := by
  cases e <;> simp_all [txHeartbeat]

theorem txHeartbeat_txCount (e : esp_err_t) (s : State) :
    (txHeartbeat e s).2.txCount =
      if e = esp_err_t.ESP_OK then wrap32 (s.txCount + 1) else s.txCount := by
  cases e <;> simp [txHeartbeat]

/-- The fields `txHeartbeat` never writes. -/
theorem txHeartbeat_untouched (e : esp_err_t) (s : State) :
    (txHeartbeat e s).2.lastHb = s.lastHb ∧ (txHeartbeat e s).2.ackCount = s.ackCount ∧
    (txHeartbeat e s).2.txFailCount = s.txFailCount ∧
    (txHeartbeat e s).2.busErrCount = s.busErrCount ∧
    (txHeartbeat e s).2.busOffCount = s.busOffCount ∧ (txHeartbeat e s).2.next = s.next := by
  cases e <;> simp [txHeartbeat]

theorem txHeartbeat_timeouts (e : esp_err_t) (s : State) :
    (txHeartbeat e s).2.trace.count Event.txTimeout =
      s.trace.count Event.txTimeout + if e = esp_err_t.ESP_ERR_TIMEOUT then 1 else 0 := by
  cases e <;> simp [txHeartbeat, List.count_append, List.count_singleton]

theorem runAttempts_txCount (es : List esp_err_t) (s : State) :
    (runAttempts es s).txCount = wrap32 (s.txCount + es.count esp_err_t.ESP_OK) ∨
    (es.count esp_err_t.ESP_OK = 0 ∧ (runAttempts es s).txCount = s.txCount) := by
  induction es generalizing s with
  | nil => right; simp [runAttempts]
  | cons e es ih =>
    simp only [runAttempts]
    by_cases he : e = esp_err_t.ESP_OK
    · subst he
      left
      rcases ih (txHeartbeat esp_err_t.ESP_OK s).2 with h | ⟨h0, h⟩
      · rw [h, txHeartbeat_ok, wrap32_add_wrap32]; simp [List.count_cons]; congr 1; omega
      · rw [h, txHeartbeat_ok]; simp [List.count_cons, h0]
    · rcases ih (txHeartbeat e s).2 with h | ⟨h0, h⟩
      · left; rw [h, txHeartbeat_not_ok e s he]; simp [List.count_cons, he]
      · right; rw [h, txHeartbeat_not_ok e s he]; simp [List.count_cons, he, h0]


theorem runAttempts_untouched (es : List esp_err_t) (s : State) :
    (runAttempts es s).txFailCount = s.txFailCount ∧ (runAttempts es s).ackCount = s.ackCount ∧
    (runAttempts es s).busErrCount = s.busErrCount ∧
    (runAttempts es s).busOffCount = s.busOffCount := by
  induction es generalizing s with
  | nil => simp [runAttempts]
  | cons e es ih =>
    obtain ⟨-, h1, h2, h3, h4, -⟩ := txHeartbeat_untouched e s
    simp only [runAttempts, ih, h1, h2, h3, h4, and_self]

theorem runAttempts_timeouts (es : List esp_err_t) (s : State) :
    (runAttempts es s).trace.count Event.txTimeout =
      s.trace.count Event.txTimeout + es.count esp_err_t.ESP_ERR_TIMEOUT := by
  induction es generalizing s with
  | nil => simp [runAttempts]
  | cons e es ih =>
    simp only [runAttempts, ih, txHeartbeat_timeouts, List.count_cons, beq_iff_eq]
    omega

/-- C3 (as the code has it): for every sequence of heartbeat attempts and every
assignment of transport results, `txCount` afterwards is its initial value plus the number
of attempts that returned `ESP_OK` (as `uint32_t`, modulo 2^32); `txFailCount`
is unchanged; the number of timeout records grows by the number of attempts
that returned `ESP_ERR_TIMEOUT`; and a single attempt that returns anything
but `ESP_OK` leaves `txCount` and `txFailCount` unchanged. -/
theorem runAttempts_counts (es : List esp_err_t) (s : State) (h : s.txCount < 4294967296) :
    (runAttempts es s).txCount = wrap32 (s.txCount + es.count esp_err_t.ESP_OK) ∧
    (runAttempts es s).txFailCount = s.txFailCount ∧
    (runAttempts es s).trace.count Event.txTimeout =
      s.trace.count Event.txTimeout + es.count esp_err_t.ESP_ERR_TIMEOUT ∧
    (∀ e, e ≠ esp_err_t.ESP_OK →
      (txHeartbeat e s).2.txCount = s.txCount ∧
      (txHeartbeat e s).2.txFailCount = s.txFailCount ∧
      (txHeartbeat e s).2.trace.count Event.txTimeout =
        s.trace.count Event.txTimeout + if e = esp_err_t.ESP_ERR_TIMEOUT then 1 else 0) := by
  refine ⟨?_, (runAttempts_untouched es s).1, runAttempts_timeouts es s, ?_⟩
  · rcases runAttempts_txCount es s with h1 | ⟨h0, h1⟩
    · exact h1
    · rw [h1, h0, Nat.add_zero, wrap32_of_lt h]
  · intro e he
    exact ⟨txHeartbeat_not_ok e s he, (txHeartbeat_untouched e s).2.2.1, txHeartbeat_timeouts e s⟩

/-- Scenario B: from program start, five attempts with `ESP_ERR_TIMEOUT` on the
third and fourth give `txCount = 3`, `txFailCount = 0` and two timeout
records. -/
theorem runAttempts_counts_witness :
    State.init.txCount < 4294967296 ∧
    (runAttempts [esp_err_t.ESP_OK, esp_err_t.ESP_OK, esp_err_t.ESP_ERR_TIMEOUT,
        esp_err_t.ESP_ERR_TIMEOUT, esp_err_t.ESP_OK] State.init).txCount = 3 ∧
    (runAttempts [esp_err_t.ESP_OK, esp_err_t.ESP_OK, esp_err_t.ESP_ERR_TIMEOUT,
        esp_err_t.ESP_ERR_TIMEOUT, esp_err_t.ESP_OK] State.init).txFailCount = 0 ∧
    (runAttempts [esp_err_t.ESP_OK, esp_err_t.ESP_OK, esp_err_t.ESP_ERR_TIMEOUT,
        esp_err_t.ESP_ERR_TIMEOUT, esp_err_t.ESP_OK] State.init).trace.count Event.txTimeout
      = 2 := by
  have h := runAttempts_counts [esp_err_t.ESP_OK, esp_err_t.ESP_OK, esp_err_t.ESP_ERR_TIMEOUT,
        esp_err_t.ESP_ERR_TIMEOUT, esp_err_t.ESP_OK] State.init (by decide)
  refine ⟨by decide, ?_, ?_, ?_⟩
  · rw [h.1]; decide
  · rw [h.2.1]; decide
  · rw [h.2.2.1]; decide

/-- The frame of C1 at a concrete state: with `txCount = 0x01020304` the
sequence bytes are `1,2,3,4`. -/
theorem txHeartbeat_frame_witness :
    (0x01020304 : Nat) < 4294967296 ∧
    transmitted (txHeartbeat esp_err_t.ESP_ERR_TIMEOUT
        { State.init with txCount := 0x01020304 }).2.trace =
      [{ identifier := 0x123, data_length_code := 8,
         data := [72, 66, 1, 2, 3, 4, 0x25, 0x0A], extd := false, rtr := false }] := by
  obtain ⟨b3, b2, b1, b0, h3, h2, h1, h0, hsum, htr⟩ :=
    txHeartbeat_frame esp_err_t.ESP_ERR_TIMEOUT { State.init with txCount := 0x01020304 }
      (by decide)
  have e3 : b3 = 1 := by simp at hsum; omega
  have e2 : b2 = 2 := by simp at hsum; omega
  have e1 : b1 = 3 := by simp at hsum; omega
  have e0 : b0 = 4 := by simp at hsum; omega
  subst e3 e2 e1 e0
  refine ⟨by decide, ?_⟩
  rw [htr]
  rfl

/-! ## The recovery session -/

theorem busOffBatches_cons (K : AlertMasks) (a : Nat) (l : List Nat) :
    busOffBatches K (a :: l) =
      busOffBatches K l + if a &&& K.TWAI_ALERT_BUS_OFF ≠ 0 then 1 else 0 := by
  simp [busOffBatches, List.countP_cons]

theorem dumpAlerts_busOffCount_lt (K : AlertMasks) (a : Nat) (s : State)
    (h : s.busOffCount < 4294967296) : (dumpAlerts K a s).busOffCount < 4294967296 := by
  rw [dumpAlerts_busOffCount]; split
  · exact wrap32_lt _
  · exact h

/-- Over the polling loop `busOffCount` grows by the number of classified
batches that have the `BUS_OFF` flag. -/
theorem pollLoop_counts_busOff (K : AlertMasks) (d : Nat) (polls : List Poll) (s : State)
    (h : s.busOffCount < 4294967296) :
    (pollLoop K d polls s).1.busOffCount =
      wrap32 (s.busOffCount + busOffBatches K (classified K d polls)) := by
  induction polls generalizing s with
  | nil => simp [pollLoop, classified, busOffBatches, wrap32_of_lt h]
  | cons p ps ih =>
    simp only [pollLoop, classified]
    by_cases h1 : p.now < d
    · by_cases h2 : p.err = esp_err_t.ESP_OK ∧ p.a ≠ 0
      · by_cases h3 : p.a &&& K.TWAI_ALERT_BUS_RECOVERED ≠ 0
        · simp only [h1, h2, h3, if_true, and_self, ne_eq, not_false_eq_true, emit_busOffCount,
            busOffBatches_cons, dumpAlerts_busOffCount]
          simp only [busOffBatches, List.countP_nil, Nat.zero_add]
          split
          · rfl
          · exact (wrap32_of_lt h).symm
        · simp only [h1, h2, h3, if_true, if_false, and_self, ne_eq, not_false_eq_true]
          rw [ih _ (dumpAlerts_busOffCount_lt K p.a s h), busOffBatches_cons,
            dumpAlerts_busOffCount]
          split
          · rw [wrap32_add_wrap32]; congr 1; omega
          · simp
      · simp only [h1, h2, if_true, if_false]
        exact ih s h
    · simp [h1, busOffBatches, wrap32_of_lt h]

/-- The polling loop makes no call of `twai_initiate_recovery`. -/
theorem pollLoop_initiate_count (K : AlertMasks) (d : Nat) (polls : List Poll) (s : State) :
    (pollLoop K d polls s).1.trace.count Event.twai_initiate_recovery =
      s.trace.count Event.twai_initiate_recovery := by
  have hd : ∀ a s, (dumpAlerts K a s).trace.count Event.twai_initiate_recovery =
      s.trace.count Event.twai_initiate_recovery := fun a s =>
    dumpAlerts_count K a s _ (by simp) (by simp) (by simp)
  induction polls generalizing s with
  | nil => simp [pollLoop]
  | cons p ps ih =>
    simp only [pollLoop]
    split
    · split
      · split
        · simp [List.count_append, hd]
        · rw [ih, hd]
      · exact ih s
    · rfl

/-- When the polling loop is left by its loop test, the iteration that left it
read a clock value at or after the deadline, and every iteration before it
read one below the deadline. -/
theorem pollLoop_deadline_exit (K : AlertMasks) (d : Nat) (polls : List Poll) (s : State)
    (h : (pollLoop K d polls s).2 = LoopExit.deadline) :
    ∃ pre p post, polls = pre ++ p :: post ∧ (∀ q ∈ pre, q.now < d) ∧ d ≤ p.now := by
  induction polls generalizing s with
  | nil => simp [pollLoop] at h
  | cons p ps ih =>
    simp only [pollLoop] at h
    by_cases h1 : p.now < d
    · have hrec : ∃ s', (pollLoop K d ps s').2 = LoopExit.deadline := by
        simp only [h1, if_true] at h
        split at h
        · split at h
          · simp at h
          · exact ⟨_, h⟩
        · exact ⟨_, h⟩
      obtain ⟨s', hs'⟩ := hrec
      obtain ⟨pre, q, post, hp, hpre, hq⟩ := ih s' hs'
      refine ⟨p :: pre, q, post, by simp [hp], ?_, hq⟩
      intro x hx
      rcases List.mem_cons.mp hx with rfl | hx
      · exact h1
      · exact hpre x hx
    · exact ⟨[], p, ps, rfl, by simp, Nat.le_of_not_lt h1⟩

theorem recoverIfBusOff_of_busOff (K : AlertMasks) (env : RecoveryEnv) (s : State)
    (h : env.status.err = esp_err_t.ESP_OK ∧
      env.status.st.state = twai_state_t.TWAI_STATE_BUS_OFF) :
    recoverIfBusOff K env s =
      ((pollLoop K (wrap32 (env.T + 1200)) env.polls
          ((s.emit Event.recoveryStart).emit Event.twai_initiate_recovery)).1,
        some { deadline := wrap32 (env.T + 1200),
               exit := (pollLoop K (wrap32 (env.T + 1200)) env.polls
          ((s.emit Event.recoveryStart).emit Event.twai_initiate_recovery)).2 }) := by
  simp [recoverIfBusOff, h]

theorem recoverIfBusOff_of_not_busOff (K : AlertMasks) (env : RecoveryEnv) (s : State)
    (h : ¬ (env.status.err = esp_err_t.ESP_OK ∧
      env.status.st.state = twai_state_t.TWAI_STATE_BUS_OFF)) :
    recoverIfBusOff K env s = (s, none) := by
  simp only [recoverIfBusOff, h, if_false]

/-- C4 (as the code has it): inside the polling window of a recovery session
every alert batch that is classified and has the `BUS_OFF` flag increments
`busOffCount` once more; over the window `busOffCount` grows (as `uint32_t`)
by the number of such batches. -/
theorem pollLoop_busOffCount (K : AlertMasks) (deadline : Nat) (polls : List Poll)
    (s : State) (h : s.busOffCount < 4294967296) :
    (pollLoop K deadline polls s).1.busOffCount =
      wrap32 (s.busOffCount + busOffBatches K (classified K deadline polls)) :=
  pollLoop_counts_busOff K deadline polls s h

/-- C4 at a concrete window: three `BUS_OFF` batches inside the window add three. -/
theorem pollLoop_busOffCount_witness :
    State.init.busOffCount < 4294967296 ∧
    (pollLoop idfMasks 2200 [⟨1010, esp_err_t.ESP_OK, 0x2000⟩, ⟨1060, esp_err_t.ESP_OK, 0x2000⟩,
        ⟨1110, esp_err_t.ESP_OK, 0x2000⟩, ⟨2200, esp_err_t.ESP_ERR_TIMEOUT, 0⟩]
      State.init).1.busOffCount = 3 := by
  refine ⟨by decide, ?_⟩
  rw [pollLoop_busOffCount idfMasks 2200 _ State.init (by decide)]
  decide

/-- C4 fails as stated: a session begun by `recoverIfBusOff` at `millis() = 1000`
in which two alert batches with `BUS_OFF` are read before the deadline (the
loop is left by the deadline at 2200) raises `busOffCount` from 0 to 2. -/
theorem busOff_counted_per_batch :
    (recoverIfBusOff idfMasks
        ⟨busOffStatus, 1000, [⟨1010, esp_err_t.ESP_OK, 0x2000⟩,
          ⟨1060, esp_err_t.ESP_OK, 0x2000⟩, ⟨2200, esp_err_t.ESP_ERR_TIMEOUT, 0⟩]⟩
        State.init).1.busOffCount = 2 ∧
    (recoverIfBusOff idfMasks
        ⟨busOffStatus, 1000, [⟨1010, esp_err_t.ESP_OK, 0x2000⟩,
          ⟨1060, esp_err_t.ESP_OK, 0x2000⟩, ⟨2200, esp_err_t.ESP_ERR_TIMEOUT, 0⟩]⟩
        State.init).2 = some ⟨2200, LoopExit.deadline⟩ := by
  decide

theorem land_ne_zero_left {a m : Nat} (h : a &&& m ≠ 0) : a ≠ 0 := by
  rintro rfl
  simp at h

theorem loopAlerts_of_busOff (K : AlertMasks) (err : esp_err_t) (a : Nat) (env : RecoveryEnv)
    (s : State) (he : err = esp_err_t.ESP_OK) (ha : a &&& K.TWAI_ALERT_BUS_OFF ≠ 0) :
    loopAlerts K err a env s = recoverIfBusOff K env (dumpAlerts K a s) := by
  unfold loopAlerts
  rw [if_pos ⟨he, land_ne_zero_left ha⟩]
  exact if_pos ha

theorem loopAlerts_of_not_busOff (K : AlertMasks) (err : esp_err_t) (a : Nat)
    (env : RecoveryEnv) (s : State)
    (h : ¬ (err = esp_err_t.ESP_OK ∧ a &&& K.TWAI_ALERT_BUS_OFF ≠ 0)) :
    (loopAlerts K err a env s).2 = none ∧
    ((loopAlerts K err a env s).1 = s ∨ (loopAlerts K err a env s).1 = dumpAlerts K a s) := by
  unfold loopAlerts
  by_cases h1 : err = esp_err_t.ESP_OK ∧ a ≠ 0
  · rw [if_pos h1]
    have h2 : ¬ (a &&& K.TWAI_ALERT_BUS_OFF ≠ 0) := fun h2 => h ⟨h1.1, h2⟩
    show (if a &&& K.TWAI_ALERT_BUS_OFF ≠ 0 then recoverIfBusOff K env (dumpAlerts K a s)
      else (dumpAlerts K a s, none)).2 = none ∧ _
    rw [if_neg h2]
    exact ⟨rfl, Or.inr rfl⟩
  · rw [if_neg h1]
    exact ⟨rfl, Or.inl rfl⟩

/-- C5 (as the code has it): in a pass of `loop`, a recovery session is begun
exactly when the alert read succeeds with a batch that has the `BUS_OFF` flag
and the status snapshot then read reports `BUS_OFF`; in that case
`twai_initiate_recovery` is called once and the deadline is
`millis() + 1200` (as `uint32_t`), and in every other case it is not called. -/
theorem loopAlerts_session (K : AlertMasks) (err : esp_err_t) (a : Nat) (env : RecoveryEnv)
    (s : State) :
    ((loopAlerts K err a env s).2.isSome ↔
      (err = esp_err_t.ESP_OK ∧ a &&& K.TWAI_ALERT_BUS_OFF ≠ 0 ∧
        env.status.err = esp_err_t.ESP_OK ∧
        env.status.st.state = twai_state_t.TWAI_STATE_BUS_OFF)) ∧
    (∀ x, (loopAlerts K err a env s).2 = some x → x.deadline = wrap32 (env.T + 1200)) ∧
    (loopAlerts K err a env s).1.trace.count Event.twai_initiate_recovery =
      s.trace.count Event.twai_initiate_recovery +
        if (loopAlerts K err a env s).2.isSome then 1 else 0 := by
  have hd : ∀ a s, (dumpAlerts K a s).trace.count Event.twai_initiate_recovery =
      s.trace.count Event.twai_initiate_recovery := fun a s =>
    dumpAlerts_count K a s _ (by simp) (by simp) (by simp)
  by_cases h1 : err = esp_err_t.ESP_OK ∧ a &&& K.TWAI_ALERT_BUS_OFF ≠ 0
  · rw [loopAlerts_of_busOff K err a env s h1.1 h1.2]
    by_cases h3 : env.status.err = esp_err_t.ESP_OK ∧
        env.status.st.state = twai_state_t.TWAI_STATE_BUS_OFF
    · rw [recoverIfBusOff_of_busOff K env _ h3]
      refine ⟨⟨fun _ => ⟨h1.1, h1.2, h3.1, h3.2⟩, fun _ => rfl⟩, ?_, ?_⟩
      · intro x hx
        rw [← Option.some.inj hx]
      · show List.count _ (pollLoop _ _ _ _).1.trace = _ + 1
        rw [pollLoop_initiate_count, emit_trace, emit_trace, List.count_append,
          List.count_append, hd]
        rfl
    · rw [recoverIfBusOff_of_not_busOff K env _ h3]
      refine ⟨⟨fun h => (by cases h), fun h => absurd ⟨h.2.2.1, h.2.2.2⟩ h3⟩, ?_, ?_⟩
      · intro x hx; cases hx
      · simp [hd]
  · obtain ⟨hn, hs⟩ := loopAlerts_of_not_busOff K err a env s h1
    rw [hn]
    refine ⟨⟨fun h => (by cases h), fun h => absurd ⟨h.1, h.2.1⟩ h1⟩, ?_, ?_⟩
    · intro x hx; cases hx
    · rcases hs with hs | hs <;> simp [hs, hd]

/-- C5 at a concrete pass: a `BUS_OFF` batch with a `BUS_OFF` snapshot at
`millis() = 1000` begins a session with deadline 2200 and one call of
`twai_initiate_recovery`. -/
theorem loopAlerts_session_witness :
    (loopAlerts idfMasks esp_err_t.ESP_OK 0x2000 ⟨busOffStatus, 1000, []⟩ State.init).2 =
      some ⟨2200, LoopExit.running⟩ ∧
    (loopAlerts idfMasks esp_err_t.ESP_OK 0x2000 ⟨busOffStatus, 1000, []⟩
      State.init).1.trace.count Event.twai_initiate_recovery = 1 := by
  have h := loopAlerts_session idfMasks esp_err_t.ESP_OK 0x2000 ⟨busOffStatus, 1000, []⟩
    State.init
  refine ⟨by decide, ?_⟩
  rw [h.2.2]
  decide

/-- C5 fails as stated: with a status snapshot reporting `BUS_OFF` and an alert
batch without the `BUS_OFF` flag (only `TX_SUCCESS`) no session is begun and
`twai_initiate_recovery` is not called; and with an alert batch that has the
`BUS_OFF` flag and a status snapshot reporting `RUNNING` none is begun
either. -/
theorem session_needs_alert_and_status :
    (loopAlerts idfMasks esp_err_t.ESP_OK 0x2 ⟨busOffStatus, 1000, []⟩ State.init).2 = none ∧
    (loopAlerts idfMasks esp_err_t.ESP_OK 0x2 ⟨busOffStatus, 1000, []⟩
      State.init).1.trace.count Event.twai_initiate_recovery = 0 ∧
    (loopAlerts idfMasks esp_err_t.ESP_OK 0x2000 ⟨runningStatus, 1000, []⟩ State.init).2 = none ∧
    (loopAlerts idfMasks esp_err_t.ESP_OK 0x2000 ⟨runningStatus, 1000, []⟩
      State.init).1.trace.count Event.twai_initiate_recovery = 0 := by
  decide

theorem printStatus_busOffCount (tag : StatusTag) (r : StatusRead) (s : State) :
    (printStatus tag r s).busOffCount = s.busOffCount := by
  unfold printStatus; split <;> rfl

/-- C6 (as the code has it): `recoverIfBusOff` does not itself record the
episode.  For a call that finds `BUS_OFF`, `busOffCount` grows from the call to
the end of the session by the number `n` of `BUS_OFF` batches classified in
the polling window and by nothing else, both when called directly and when
called at startup from `twaiStartNormal`; a session begun from `loop` is
preceded by the one increment `dumpAlerts` makes for the triggering batch, so
there the growth is `1 + n`. -/
theorem recoverIfBusOff_busOffCount (K : AlertMasks) (env : RecoveryEnv) (s : State)
    (hs : s.busOffCount < 4294967296)
    (hb : env.status.err = esp_err_t.ESP_OK ∧
      env.status.st.state = twai_state_t.TWAI_STATE_BUS_OFF) :
    (recoverIfBusOff K env s).1.busOffCount =
      wrap32 (s.busOffCount +
        busOffBatches K (classified K (wrap32 (env.T + 1200)) env.polls)) ∧
    (∀ st, (twaiStartNormal K esp_err_t.ESP_OK esp_err_t.ESP_OK env st s).2.1.busOffCount =
      wrap32 (s.busOffCount +
        busOffBatches K (classified K (wrap32 (env.T + 1200)) env.polls))) ∧
    (∀ a, a &&& K.TWAI_ALERT_BUS_OFF ≠ 0 →
      (loopAlerts K esp_err_t.ESP_OK a env s).1.busOffCount =
        wrap32 (s.busOffCount + (1 +
          busOffBatches K (classified K (wrap32 (env.T + 1200)) env.polls)))) := by
  have key : ∀ s : State, s.busOffCount < 4294967296 →
      (recoverIfBusOff K env s).1.busOffCount =
        wrap32 (s.busOffCount +
          busOffBatches K (classified K (wrap32 (env.T + 1200)) env.polls)) := by
    intro s hs
    rw [recoverIfBusOff_of_busOff K env s hb]
    exact pollLoop_counts_busOff K _ _ _ hs
  refine ⟨key s hs, ?_, ?_⟩
  · intro st
    simp only [twaiStartNormal, ne_eq, not_true_eq_false, if_false, printStatus_busOffCount]
    exact key _ hs
  · intro a ha
    rw [loopAlerts_of_busOff K _ a env s rfl ha,
      key _ (dumpAlerts_busOffCount_lt K a s hs), dumpAlerts_busOffCount, if_pos ha,
      wrap32_add_wrap32, Nat.add_assoc]

/-- C6 at concrete sessions: begun from `loop` by a `BUS_OFF` batch with no
further `BUS_OFF` batch in the window, `busOffCount` goes from 0 to 1; begun
directly with one `BUS_OFF` batch in the window, from 0 to 1 as well. -/
theorem recoverIfBusOff_busOffCount_witness :
    (loopAlerts idfMasks esp_err_t.ESP_OK 0x2000
      ⟨busOffStatus, 1000, [⟨1600, esp_err_t.ESP_OK, 0x40⟩]⟩ State.init).1.busOffCount = 1 ∧
    (recoverIfBusOff idfMasks
      ⟨busOffStatus, 1000, [⟨1600, esp_err_t.ESP_OK, 0x2000⟩]⟩ State.init).1.busOffCount = 1 := by
  have h := recoverIfBusOff_busOffCount idfMasks
    ⟨busOffStatus, 1000, [⟨1600, esp_err_t.ESP_OK, 0x40⟩]⟩ State.init (by decide) (by decide)
  have h2 := recoverIfBusOff_busOffCount idfMasks
    ⟨busOffStatus, 1000, [⟨1600, esp_err_t.ESP_OK, 0x2000⟩]⟩ State.init (by decide) (by decide)
  refine ⟨?_, ?_⟩
  · rw [h.2.2 0x2000 (by decide)]; decide
  · rw [h2.1]; decide

/-- C6 fails as stated: at startup, `twaiStartNormal` finds `BUS_OFF` at
`millis() = 1000`, begins a session, and the session ends by a `BUS_RECOVERED`
alert at 1600 (first case) or by the deadline at 2200 (second case); in both
`busOffCount` is still 0 afterwards. -/
theorem startup_session_not_counted :
    (twaiStartNormal idfMasks esp_err_t.ESP_OK esp_err_t.ESP_OK
      ⟨busOffStatus, 1000, [⟨1600, esp_err_t.ESP_OK, 0x40⟩]⟩ runningStatus
      State.init).2.1.busOffCount = 0 ∧
    (twaiStartNormal idfMasks esp_err_t.ESP_OK esp_err_t.ESP_OK
      ⟨busOffStatus, 1000, [⟨1600, esp_err_t.ESP_OK, 0x40⟩]⟩ runningStatus
      State.init).2.2 = some ⟨2200, LoopExit.recovered⟩ ∧
    (twaiStartNormal idfMasks esp_err_t.ESP_OK esp_err_t.ESP_OK
      ⟨busOffStatus, 1000, [⟨1600, esp_err_t.ESP_ERR_TIMEOUT, 0⟩,
        ⟨2200, esp_err_t.ESP_ERR_TIMEOUT, 0⟩]⟩ busOffStatus
      State.init).2.1.busOffCount = 0 ∧
    (twaiStartNormal idfMasks esp_err_t.ESP_OK esp_err_t.ESP_OK
      ⟨busOffStatus, 1000, [⟨1600, esp_err_t.ESP_ERR_TIMEOUT, 0⟩,
        ⟨2200, esp_err_t.ESP_ERR_TIMEOUT, 0⟩]⟩ busOffStatus
      State.init).2.2 = some ⟨2200, LoopExit.deadline⟩ := by
  decide

/-! ## The deadline of the polling loop -/

/-- A session opened at a clock value `T` with `T + 1200 < 2^32` is left by
its loop test only by an iteration whose clock reading is at or after
`T + 1200`. -/
theorem recoverIfBusOff_deadline_in_range (K : AlertMasks) (env : RecoveryEnv) (s : State)
    (x : Session) (hT : env.T + 1200 < 4294967296)
    (h : (recoverIfBusOff K env s).2 = some x) (hx : x.exit = LoopExit.deadline) :
    ∃ pre p post, env.polls = pre ++ p :: post ∧ (∀ q ∈ pre, q.now < env.T + 1200) ∧
      env.T + 1200 ≤ p.now := by
  by_cases hb : env.status.err = esp_err_t.ESP_OK ∧
      env.status.st.state = twai_state_t.TWAI_STATE_BUS_OFF
  · rw [recoverIfBusOff_of_busOff K env s hb] at h
    have h' := Option.some.inj h
    rw [← h'] at hx
    have := pollLoop_deadline_exit K _ _ _ hx
    rwa [wrap32_of_lt hT] at this
  · rw [recoverIfBusOff_of_not_busOff K env s hb] at h
    cases h

/-- C7, the code at the failing input: a session opened at
`millis() = 2^32 - 1200 = 4294966096` gets the deadline `0`, so the loop test
`millis() < deadline` fails at once: the polling loop is left by the deadline
at the first test, at clock value 4294966096, that is 1200 ms before
`T + W`, without any alert having been read. -/
theorem recoverIfBusOff_deadline_wraps :
    (recoverIfBusOff idfMasks
      ⟨busOffStatus, 4294966096, [⟨4294966096, esp_err_t.ESP_ERR_TIMEOUT, 0⟩]⟩ State.init).2 =
      some ⟨0, LoopExit.deadline⟩ ∧
    (recoverIfBusOff idfMasks
      ⟨busOffStatus, 4294966096, [⟨4294966096, esp_err_t.ESP_ERR_TIMEOUT, 0⟩]⟩ State.init).1.trace =
      [Event.recoveryStart, Event.twai_initiate_recovery] := by
  decide

/-! ## Counters along runs -/

theorem incremented_refl {x : Nat} (h : x < 4294967296) : incremented 0 x x :=
  ⟨0, Nat.le_refl 0, (wrap32_of_lt h).symm⟩

theorem incremented_succ (x : Nat) : incremented 1 x (wrap32 (x + 1)) :=
  ⟨1, Nat.le_refl 1, rfl⟩

theorem incremented_mono {n m x y : Nat} (h : n ≤ m) : incremented n x y → incremented m x y :=
  fun ⟨k, hk, e⟩ => ⟨k, Nat.le_trans hk h, e⟩

theorem incremented_trans {n m x y z : Nat} :
    incremented n x y → incremented m y z → incremented (n + m) x z := by
  rintro ⟨k, hk, rfl⟩ ⟨j, hj, rfl⟩
  exact ⟨k + j, by omega, by rw [wrap32_add_wrap32, Nat.add_assoc]⟩

theorem incremented_lt {n x y : Nat} : incremented n x y → y < 4294967296 := by
  rintro ⟨k, -, rfl⟩
  exact wrap32_lt _

theorem incremented_le {n x y : Nat} (h : incremented n x y) (hn : x + n < 4294967296) :
    x ≤ y := by
  obtain ⟨k, hk, rfl⟩ := h
  rw [wrap32_of_lt (by omega)]
  omega

theorem incremented_ite {x : Nat} (c : Prop) [Decidable c] (h : x < 4294967296) :
    incremented 1 x (if c then wrap32 (x + 1) else x) := by
  split
  · exact incremented_succ x
  · exact incremented_mono (Nat.zero_le 1) (incremented_refl h)

theorem Adv.wf {n : Nat} {s t : State} (h : Adv n s t) : t.WF :=
  ⟨incremented_lt h.1, incremented_lt h.2.1, incremented_lt h.2.2.1, incremented_lt h.2.2.2.1,
    incremented_lt h.2.2.2.2⟩

theorem Adv.mono {n m : Nat} {s t : State} (hnm : n ≤ m) (h : Adv n s t) : Adv m s t :=
  ⟨incremented_mono hnm h.1, incremented_mono hnm h.2.1, incremented_mono hnm h.2.2.1,
    incremented_mono hnm h.2.2.2.1, incremented_mono hnm h.2.2.2.2⟩

theorem Adv.trans {n m : Nat} {s t u : State} (h1 : Adv n s t) (h2 : Adv m t u) :
    Adv (n + m) s u :=
  ⟨incremented_trans h1.1 h2.1, incremented_trans h1.2.1 h2.2.1,
    incremented_trans h1.2.2.1 h2.2.2.1, incremented_trans h1.2.2.2.1 h2.2.2.2.1,
    incremented_trans h1.2.2.2.2 h2.2.2.2.2⟩

/-- A function that writes no counter advances none. -/
theorem Adv.of_eq {s t : State} (hs : s.WF) (h1 : t.txCount = s.txCount)
    (h2 : t.ackCount = s.ackCount) (h3 : t.txFailCount = s.txFailCount)
    (h4 : t.busErrCount = s.busErrCount) (h5 : t.busOffCount = s.busOffCount) : Adv 0 s t := by
  unfold Adv
  rw [h1, h2, h3, h4, h5]
  exact ⟨incremented_refl hs.1, incremented_refl hs.2.1, incremented_refl hs.2.2.1,
    incremented_refl hs.2.2.2.1, incremented_refl hs.2.2.2.2⟩

theorem Adv.refl {s : State} (hs : s.WF) : Adv 0 s s :=
  Adv.of_eq hs rfl rfl rfl rfl rfl

theorem Adv.emit {n : Nat} {s t : State} (h : Adv n s t) (e : Event) : Adv n s (t.emit e) := h

theorem dumpAlerts_adv (K : AlertMasks) (a : Nat) (s : State) (hs : s.WF) :
    Adv 1 s (dumpAlerts K a s) := by
  unfold Adv
  rw [dumpAlerts_ackCount, dumpAlerts_txFailCount, dumpAlerts_busErrCount,
    dumpAlerts_busOffCount, (dumpAlerts_untouched K a s).2.1]
  exact ⟨incremented_mono (Nat.zero_le 1) (incremented_refl hs.1), incremented_ite _ hs.2.1,
    incremented_ite _ hs.2.2.1, incremented_ite _ hs.2.2.2.1, incremented_ite _ hs.2.2.2.2⟩

theorem txHeartbeat_adv (e : esp_err_t) (s : State) (hs : s.WF) :
    Adv 1 s (txHeartbeat e s).2 := by
  obtain ⟨-, h2, h3, h4, h5, -⟩ := txHeartbeat_untouched e s
  unfold Adv
  rw [h2, h3, h4, h5, txHeartbeat_txCount]
  exact ⟨incremented_ite _ hs.1, incremented_mono (Nat.zero_le 1) (incremented_refl hs.2.1),
    incremented_mono (Nat.zero_le 1) (incremented_refl hs.2.2.1),
    incremented_mono (Nat.zero_le 1) (incremented_refl hs.2.2.2.1),
    incremented_mono (Nat.zero_le 1) (incremented_refl hs.2.2.2.2)⟩

theorem pollLoop_adv (K : AlertMasks) (d : Nat) (polls : List Poll) (s : State) (hs : s.WF) :
    Adv polls.length s (pollLoop K d polls s).1 := by
  induction polls generalizing s with
  | nil => exact Adv.refl hs
  | cons p ps ih =>
    have hd := dumpAlerts_adv K p.a s hs
    simp only [pollLoop, List.length_cons]
    split
    · split
      · split
        · exact Adv.mono (by omega) (Adv.emit hd _)
        · have := Adv.trans hd (ih _ hd.wf)
          rwa [Nat.add_comm] at this
      · exact Adv.mono (by omega) (ih s hs)
    · exact Adv.mono (by omega) (Adv.refl hs)

theorem recoverIfBusOff_adv (K : AlertMasks) (env : RecoveryEnv) (s : State) (hs : s.WF) :
    Adv env.polls.length s (recoverIfBusOff K env s).1 := by
  unfold recoverIfBusOff
  split
  · exact pollLoop_adv K _ env.polls _ hs
  · exact Adv.mono (Nat.zero_le _) (Adv.refl hs)

theorem loopAlerts_adv (K : AlertMasks) (err : esp_err_t) (a : Nat) (env : RecoveryEnv)
    (s : State) (hs : s.WF) : Adv (1 + env.polls.length) s (loopAlerts K err a env s).1 := by
  have hd := dumpAlerts_adv K a s hs
  unfold loopAlerts
  split
  · show Adv _ s (if a &&& K.TWAI_ALERT_BUS_OFF ≠ 0 then recoverIfBusOff K env (dumpAlerts K a s)
      else (dumpAlerts K a s, none)).1
    split
    · exact Adv.trans hd (recoverIfBusOff_adv K env _ hd.wf)
    · exact Adv.mono (by omega) hd
  · exact Adv.mono (Nat.zero_le _) (Adv.refl hs)

theorem loopHeartbeat_adv (now1 now2 : Nat) (e : esp_err_t) (s : State) (hs : s.WF) :
    Adv 1 s (loopHeartbeat now1 now2 e s) := by
  unfold loopHeartbeat
  split
  · exact txHeartbeat_adv e { s with lastHb := now2 } hs
  · exact Adv.mono (Nat.zero_le _) (Adv.refl hs)

theorem rxDrainFrom_counters (rx : Nat → esp_err_t × twai_message_t) (left i : Nat) (s : State) :
    (rxDrainFrom rx left i s).txCount = s.txCount ∧
    (rxDrainFrom rx left i s).ackCount = s.ackCount ∧
    (rxDrainFrom rx left i s).txFailCount = s.txFailCount ∧
    (rxDrainFrom rx left i s).busErrCount = s.busErrCount ∧
    (rxDrainFrom rx left i s).busOffCount = s.busOffCount := by
  induction left generalizing i s with
  | zero => simp [rxDrainFrom]
  | succ n ih =>
    simp only [rxDrainFrom]
    split
    · simpa using ih (i + 1) (s.emit (Event.rxFrame (rx i).2))
    · simp

theorem rxDrain_adv (rx : Nat → esp_err_t × twai_message_t) (maxLoops : Nat) (s : State)
    (hs : s.WF) : Adv 0 s (rxDrain rx maxLoops s) := by
  obtain ⟨h1, h2, h3, h4, h5⟩ := rxDrainFrom_counters rx maxLoops 0 s
  exact Adv.of_eq hs h1 h2 h3 h4 h5

theorem printHealthEvery_adv (sec now1 now2 : Nat) (st : StatusRead) (s : State) (hs : s.WF) :
    Adv 0 s (printHealthEvery sec now1 now2 st s) := by
  unfold printHealthEvery printStatus
  split
  · exact Adv.refl hs
  · apply Adv.of_eq hs <;> (dsimp only; split <;> rfl)

theorem loop_adv (K : AlertMasks) (env : TickEnv) (s : State) (hs : s.WF) :
    Adv (2 + env.recovery.polls.length) s (loop K env s) := by
  have h1 := loopHeartbeat_adv env.now1 env.now2 env.tx s hs
  have h2 := loopAlerts_adv K env.alertErr env.a env.recovery _ h1.wf
  have h3 := rxDrain_adv env.rx 8 _ h2.wf
  have h4 := printHealthEvery_adv 5 env.healthNow1 env.healthNow2 env.healthStatus _ h3.wf
  have := Adv.trans (Adv.trans (Adv.trans h1 h2) h3) h4
  unfold loop
  refine Adv.mono ?_ this
  omega

theorem step_adv (K : AlertMasks) (st : Step) (s : State) (hs : s.WF) :
    Adv st.size s (st.apply K s) := by
  cases st with
  | heartbeat e => exact txHeartbeat_adv e s hs
  | classify a => exact dumpAlerts_adv K a s hs
  | recovery env => exact recoverIfBusOff_adv K env s hs
  | drain rx maxLoops => exact rxDrain_adv rx maxLoops s hs
  | health sec now1 now2 st => exact printHealthEvery_adv sec now1 now2 st s hs
  | tick env => exact loop_adv K env s hs

theorem init_wf : State.init.WF := by decide

theorem runSteps_wf (K : AlertMasks) (sts : List Step) (s : State) (hs : s.WF) :
    (runSteps K sts s).WF := by
  induction sts generalizing s with
  | nil => exact hs
  | cons st sts ih => exact ih _ (step_adv K st s hs).wf


/-- Along an interleaving, `ackCount` counts the `TX_SUCCESS` batches and
`txCount` the attempts that returned `ESP_OK`. -/
theorem runOps_counts_from (K : AlertMasks) (ops : List Op) (s : State)
    (ha : s.ackCount < 4294967296) (ht : s.txCount < 4294967296) :
    (runOps K ops s).ackCount = wrap32 (s.ackCount + ackedCount K ops) ∧
    (runOps K ops s).txCount = wrap32 (s.txCount + sentCount ops) := by
  induction ops generalizing s with
  | nil => simp [runOps, ackedCount, sentCount, wrap32_of_lt ha, wrap32_of_lt ht]
  | cons op ops ih =>
    cases op with
    | attempt e =>
      have h2 := (txHeartbeat_untouched e s).2.1
      have h1 := txHeartbeat_txCount e s
      have := ih (txHeartbeat e s).2 (by rw [h2]; exact ha)
        (by rw [h1]; split; exact wrap32_lt _; exact ht)
      simp only [runOps, ackedCount, sentCount]
      rw [this.1, this.2, h1, h2]
      refine ⟨rfl, ?_⟩
      split
      · rw [wrap32_add_wrap32, Nat.add_assoc]
      · rw [Nat.zero_add]
    | classify a =>
      have h2 := dumpAlerts_ackCount K a s
      have h1 := (dumpAlerts_untouched K a s).2.1
      have := ih (dumpAlerts K a s) (by rw [h2]; split; exact wrap32_lt _; exact ha)
        (by rw [h1]; exact ht)
      simp only [runOps, ackedCount, sentCount]
      rw [this.1, this.2, h1, h2]
      refine ⟨?_, rfl⟩
      split
      · rw [wrap32_add_wrap32, Nat.add_assoc]
      · rw [Nat.zero_add]

/-- C8 (as the code has it): from program start, after any interleaving of
heartbeat attempts and alert classifications, `ackCount` is the number of
classified batches with `TX_SUCCESS` and `txCount` the number of attempts that
returned `ESP_OK`, both as `uint32_t`; nothing ties the one to the other.  So
`ackCount ≤ txCount` holds in the states reached by interleavings in which the
transport reported no more `TX_SUCCESS` batches than frames accepted, with
fewer than 2^32 frames accepted. -/
theorem runOps_ack_bound (K : AlertMasks) (ops : List Op) :
    (runOps K ops State.init).ackCount = wrap32 (ackedCount K ops) ∧
    (runOps K ops State.init).txCount = wrap32 (sentCount ops) ∧
    (ackedCount K ops ≤ sentCount ops → sentCount ops < 4294967296 →
      (runOps K ops State.init).ackCount ≤ (runOps K ops State.init).txCount) := by
  have h := runOps_counts_from K ops State.init (by decide) (by decide)
  have ha : (runOps K ops State.init).ackCount = wrap32 (ackedCount K ops) := by
    rw [h.1]; congr 1; exact Nat.zero_add _
  have ht : (runOps K ops State.init).txCount = wrap32 (sentCount ops) := by
    rw [h.2]; congr 1; exact Nat.zero_add _
  refine ⟨ha, ht, ?_⟩
  intro hle hlt
  rw [ha, ht, wrap32_of_lt hlt, wrap32_of_lt (Nat.lt_of_le_of_lt hle hlt)]
  exact hle

/-- C8 at a concrete interleaving: two frames accepted, one acknowledged. -/
theorem runOps_ack_bound_witness :
    (runOps idfMasks [Op.attempt esp_err_t.ESP_OK, Op.classify 0x2,
        Op.attempt esp_err_t.ESP_OK] State.init).ackCount ≤
    (runOps idfMasks [Op.attempt esp_err_t.ESP_OK, Op.classify 0x2,
        Op.attempt esp_err_t.ESP_OK] State.init).txCount :=
  (runOps_ack_bound idfMasks [Op.attempt esp_err_t.ESP_OK, Op.classify 0x2,
    Op.attempt esp_err_t.ESP_OK]).2.2 (by decide) (by decide)

/-- C8 fails as stated: from program start, classifying one batch with
`TX_SUCCESS` before any heartbeat attempt gives `ackCount = 1` and
`txCount = 0`. -/
theorem ack_without_sent :
    (runOps idfMasks [Op.classify 0x2] State.init).ackCount = 1 ∧
    (runOps idfMasks [Op.classify 0x2] State.init).txCount = 0 ∧
    ¬ ((runOps idfMasks [Op.classify 0x2] State.init).ackCount ≤
        (runOps idfMasks [Op.classify 0x2] State.init).txCount) := by
  decide

/-- C9 (as the code has it): in every state reached from program start, no
step of the controller (heartbeat attempt, alert classification, recovery
session, receive drain, health report, a whole pass of `loop`) lowers a
counter that the step cannot carry past 2^32 - 1: a counter whose value plus
the number of increments the step can make (`Step.size`) is below 2^32 is not
smaller after the step than before it. -/
theorem step_monotone_below_wrap (K : AlertMasks) (sts : List Step) (st : Step) :
    ((runSteps K sts State.init).txCount + st.size < 4294967296 →
      (runSteps K sts State.init).txCount ≤ (st.apply K (runSteps K sts State.init)).txCount) ∧
    ((runSteps K sts State.init).ackCount + st.size < 4294967296 →
      (runSteps K sts State.init).ackCount ≤ (st.apply K (runSteps K sts State.init)).ackCount) ∧
    ((runSteps K sts State.init).txFailCount + st.size < 4294967296 →
      (runSteps K sts State.init).txFailCount ≤
        (st.apply K (runSteps K sts State.init)).txFailCount) ∧
    ((runSteps K sts State.init).busErrCount + st.size < 4294967296 →
      (runSteps K sts State.init).busErrCount ≤
        (st.apply K (runSteps K sts State.init)).busErrCount) ∧
    ((runSteps K sts State.init).busOffCount + st.size < 4294967296 →
      (runSteps K sts State.init).busOffCount ≤
        (st.apply K (runSteps K sts State.init)).busOffCount) := by
  have h := step_adv K st _ (runSteps_wf K sts State.init init_wf)
  exact ⟨incremented_le h.1, incremented_le h.2.1, incremented_le h.2.2.1,
    incremented_le h.2.2.2.1, incremented_le h.2.2.2.2⟩

/-- C9 at a concrete run: after a heartbeat and a `TX_SUCCESS` batch, a batch
with `TX_SUCCESS` and `BUS_ERROR` lowers neither `ackCount` nor `busErrCount`. -/
theorem step_monotone_below_wrap_witness :
    (runSteps idfMasks [Step.heartbeat esp_err_t.ESP_OK, Step.classify 0x2] State.init).ackCount ≤
      ((Step.classify 0x202).apply idfMasks
        (runSteps idfMasks [Step.heartbeat esp_err_t.ESP_OK, Step.classify 0x2]
          State.init)).ackCount ∧
    (runSteps idfMasks [Step.heartbeat esp_err_t.ESP_OK, Step.classify 0x2]
        State.init).busErrCount ≤
      ((Step.classify 0x202).apply idfMasks
        (runSteps idfMasks [Step.heartbeat esp_err_t.ESP_OK, Step.classify 0x2]
          State.init)).busErrCount :=
  ⟨(step_monotone_below_wrap idfMasks [Step.heartbeat esp_err_t.ESP_OK, Step.classify 0x2]
      (Step.classify 0x202)).2.1 (by decide),
   (step_monotone_below_wrap idfMasks [Step.heartbeat esp_err_t.ESP_OK, Step.classify 0x2]
      (Step.classify 0x202)).2.2.2.1 (by decide)⟩

theorem runSteps_replicate_classify (K : AlertMasks) (a n : Nat) (s : State)
    (h : a &&& K.TWAI_ALERT_TX_SUCCESS ≠ 0) :
    (runSteps K (List.replicate n (Step.classify a)) s).ackCount = wrap32 (s.ackCount + n) ∨
    (n = 0 ∧ (runSteps K (List.replicate n (Step.classify a)) s).ackCount = s.ackCount) := by
  induction n generalizing s with
  | zero => right; exact ⟨rfl, rfl⟩
  | succ n ih =>
    left
    simp only [List.replicate_succ, runSteps, Step.apply]
    rcases ih (dumpAlerts K a s) with h1 | ⟨h0, h1⟩
    · rw [h1, dumpAlerts_ackCount, if_pos h, wrap32_add_wrap32]; congr 1; omega
    · subst h0; rw [h1, dumpAlerts_ackCount, if_pos h]

/-- C9 fails as stated: the state reached from program start by classifying
2^32 - 1 alert batches with `TX_SUCCESS` has `ackCount = 4294967295`, and
classifying one more such batch yields `ackCount = 0`. -/
theorem ackCount_wraps :
    (runSteps idfMasks (List.replicate 4294967295 (Step.classify 0x2)) State.init).ackCount =
      4294967295 ∧
    ((Step.classify 0x2).apply idfMasks
      (runSteps idfMasks (List.replicate 4294967295 (Step.classify 0x2)) State.init)).ackCount =
      0 := by
  have h : (runSteps idfMasks (List.replicate 4294967295 (Step.classify 0x2))
      State.init).ackCount = 4294967295 := by
    rcases runSteps_replicate_classify idfMasks 0x2 4294967295 State.init (by decide) with
      h | ⟨h0, -⟩
    · rw [h]; decide
    · exact absurd h0 (by decide)
  refine ⟨h, ?_⟩
  show (dumpAlerts idfMasks 0x2 _).ackCount = 0
  rw [dumpAlerts_ackCount, if_pos (by decide), h]
  decide

/-! ## Heartbeat cadence -/

theorem heartbeatDue_iff (now : Nat) (s : State) :
    heartbeatDue now s = true ↔ 200 ≤ sub32 now s.lastHb := by
  simp [heartbeatDue, HEARTBEAT_MS]

theorem loopHeartbeat_lastHb (now1 now2 : Nat) (e : esp_err_t) (s : State) :
    (loopHeartbeat now1 now2 e s).lastHb =
      if 200 ≤ sub32 now1 s.lastHb then now2 else s.lastHb := by
  unfold loopHeartbeat
  by_cases h : 200 ≤ sub32 now1 s.lastHb
  · rw [if_pos ((heartbeatDue_iff now1 s).2 h), if_pos h, (txHeartbeat_untouched e _).1]
  · rw [if_neg (fun hd => h ((heartbeatDue_iff now1 s).1 hd)), if_neg h]

theorem txHeartbeat_transmitted (e : esp_err_t) (s : State) :
    (transmitted (txHeartbeat e s).2.trace).length = (transmitted s.trace).length + 1 := by
  cases e <;> simp [txHeartbeat, transmitted_append, transmitted]

theorem loopHeartbeat_transmitted (now1 now2 : Nat) (e : esp_err_t) (s : State) :
    (transmitted (loopHeartbeat now1 now2 e s).trace).length =
      (transmitted s.trace).length + if 200 ≤ sub32 now1 s.lastHb then 1 else 0 := by
  unfold loopHeartbeat
  by_cases h : 200 ≤ sub32 now1 s.lastHb
  · rw [if_pos ((heartbeatDue_iff now1 s).2 h), if_pos h, txHeartbeat_transmitted]
  · rw [if_neg (fun hd => h ((heartbeatDue_iff now1 s).1 hd)), if_neg h]; rfl

theorem sendTicks_cons_due (c : Nat) (t : Nat × Nat) (ts : List (Nat × Nat)) (s : State)
    (h : 200 ≤ sub32 (wrap32 t.1) s.lastHb) :
    sendTicks c (t :: ts) s =
      { prev := c, now1 := t.1, now2 := t.2 } ::
        sendTicks t.2 ts (loopHeartbeat (wrap32 t.1) (wrap32 t.2) esp_err_t.ESP_OK s) := by
  simp only [sendTicks]
  rw [if_pos ((heartbeatDue_iff _ s).2 h)]

theorem sendTicks_cons_not_due (c : Nat) (t : Nat × Nat) (ts : List (Nat × Nat)) (s : State)
    (h : ¬ 200 ≤ sub32 (wrap32 t.1) s.lastHb) :
    sendTicks c (t :: ts) s = sendTicks t.1 ts s := by
  simp only [sendTicks]
  rw [if_neg (fun hd => h ((heartbeatDue_iff _ s).1 hd))]
  unfold loopHeartbeat
  rw [if_neg (fun hd => h ((heartbeatDue_iff _ s).1 hd))]

/-- Separation of consecutive transmissions as read on the 32-bit clock, after
a transmission stamped `x.now2`; `c` is the last reading made so far. -/
theorem sendTicks_clock_after (ts : List (Nat × Nat)) (c : Nat) (x : Sent) (s : State)
    (hl : s.lastHb = wrap32 x.now2) (hc : sub32 (wrap32 c) (wrap32 x.now2) < 200) :
    List.Chain (fun x y : Sent =>
        200 ≤ sub32 (wrap32 y.now1) (wrap32 x.now2) ∧
        sub32 (wrap32 y.now2) (wrap32 x.now2) <
          200 + sub32 (wrap32 y.now1) (wrap32 y.prev) + sub32 (wrap32 y.now2) (wrap32 y.now1))
      x (sendTicks c ts s) := by
  induction ts generalizing c x s with
  | nil => exact List.Chain.nil
  | cons t ts ih =>
    by_cases h : 200 ≤ sub32 (wrap32 t.1) s.lastHb
    · rw [sendTicks_cons_due c t ts s h]
      refine List.Chain.cons ⟨by rw [← hl]; exact h, ?_⟩ (ih t.2 _ _ ?_ ?_)
      · simp only [sub32, wrap32] at hc ⊢
        omega
      · rw [loopHeartbeat_lastHb, if_pos h]
      · simp only [sub32, wrap32]
        omega
    · rw [sendTicks_cons_not_due c t ts s h]
      exact ih t.1 x s hl (by rw [← hl]; omega)

theorem sendTicks_clock (ts : List (Nat × Nat)) (c : Nat) (s : State) :
    List.Chain' (fun x y : Sent =>
        200 ≤ sub32 (wrap32 y.now1) (wrap32 x.now2) ∧
        sub32 (wrap32 y.now2) (wrap32 x.now2) <
          200 + sub32 (wrap32 y.now1) (wrap32 y.prev) + sub32 (wrap32 y.now2) (wrap32 y.now1))
      (sendTicks c ts s) := by
  induction ts generalizing c s with
  | nil => exact List.chain'_nil
  | cons t ts ih =>
    by_cases h : 200 ≤ sub32 (wrap32 t.1) s.lastHb
    · rw [sendTicks_cons_due c t ts s h]
      refine sendTicks_clock_after ts t.2 _ _ ?_ ?_
      · rw [loopHeartbeat_lastHb, if_pos h]
      · simp only [sub32, wrap32]
        omega
    · rw [sendTicks_cons_not_due c t ts s h]
      exact ih t.1 s

/-- Separation of consecutive transmissions in real time, lower bound, for
readings made in order. -/
theorem sendTicks_lower_after (ts : List (Nat × Nat)) (c : Nat) (p : Nat × Nat) (x : Sent)
    (s : State) (hl : s.lastHb = wrap32 x.now2) (hp : x.now2 ≤ p.2)
    (hts : List.Chain (fun p q : Nat × Nat => p.2 ≤ q.1 ∧ q.1 ≤ q.2) p ts) :
    List.Chain (fun x y : Sent => x.now2 + 200 ≤ y.now1 ∧ y.now1 ≤ y.now2) x
      (sendTicks c ts s) := by
  induction ts generalizing c p x s with
  | nil => exact List.Chain.nil
  | cons t ts ih =>
    obtain ⟨⟨hpt, ht⟩, hrest⟩ := List.chain_cons.mp hts
    by_cases h : 200 ≤ sub32 (wrap32 t.1) s.lastHb
    · rw [sendTicks_cons_due c t ts s h]
      refine List.Chain.cons ⟨?_, ht⟩ (ih t.2 t _ _ ?_ (Nat.le_refl _) hrest)
      · rw [hl] at h
        simp only [sub32, wrap32] at h
        show x.now2 + 200 ≤ t.1
        omega
      · rw [loopHeartbeat_lastHb, if_pos h]
    · rw [sendTicks_cons_not_due c t ts s h]
      exact ih t.1 t x s hl (by omega) hrest

theorem sendTicks_lower (ts : List (Nat × Nat)) (c : Nat) (s : State)
    (hts : List.Chain' (fun p q : Nat × Nat => p.2 ≤ q.1 ∧ q.1 ≤ q.2) ts) :
    List.Chain' (fun x y : Sent => x.now2 + 200 ≤ y.now1 ∧ y.now1 ≤ y.now2)
      (sendTicks c ts s) := by
  induction ts generalizing c s with
  | nil => exact List.chain'_nil
  | cons t ts ih =>
    by_cases h : 200 ≤ sub32 (wrap32 t.1) s.lastHb
    · rw [sendTicks_cons_due c t ts s h]
      refine sendTicks_lower_after ts t.2 t _ _ ?_ (Nat.le_refl _) hts
      rw [loopHeartbeat_lastHb, if_pos h]
    · rw [sendTicks_cons_not_due c t ts s h]
      exact ih t.1 s (List.Chain'.tail hts)

/-- Separation of consecutive transmissions in real time, upper bound, for
readings made in order and passes that start at most `2^32 - 200` apart. -/
theorem sendTicks_upper_after (ts : List (Nat × Nat)) (c : Nat) (p : Nat × Nat) (x : Sent)
    (s : State) (hl : s.lastHb = wrap32 x.now2) (hc : x.now2 ≤ c) (hc2 : c - x.now2 < 200)
    (hpc : p.1 ≤ c) (hcp : c ≤ p.2)
    (hts : List.Chain (fun p q : Nat × Nat =>
      p.1 ≤ p.2 ∧ p.2 ≤ q.1 ∧ q.1 ≤ q.2 ∧ q.1 - p.1 ≤ 4294967096) p ts) :
    List.Chain (fun x y : Sent =>
        y.now2 - x.now2 < 200 + (y.now1 - y.prev) + (y.now2 - y.now1)) x
      (sendTicks c ts s) := by
  induction ts generalizing c p x s with
  | nil => exact List.Chain.nil
  | cons t ts ih =>
    obtain ⟨⟨hp, hpt, ht, hgap⟩, hrest⟩ := List.chain_cons.mp hts
    by_cases h : 200 ≤ sub32 (wrap32 t.1) s.lastHb
    · rw [sendTicks_cons_due c t ts s h]
      refine List.Chain.cons ?_
        (ih t.2 t _ _ ?_ (Nat.le_refl _) (by simp) ht (Nat.le_refl _) hrest)
      · show t.2 - x.now2 < 200 + (t.1 - c) + (t.2 - t.1)
        omega
      · rw [loopHeartbeat_lastHb, if_pos h]
    · rw [sendTicks_cons_not_due c t ts s h]
      refine ih t.1 t x s hl (by omega) ?_ (Nat.le_refl _) ht hrest
      rw [hl] at h
      simp only [sub32, wrap32] at h
      omega

theorem sendTicks_upper (ts : List (Nat × Nat)) (c : Nat) (s : State)
    (hts : List.Chain' (fun p q : Nat × Nat =>
      p.1 ≤ p.2 ∧ p.2 ≤ q.1 ∧ q.1 ≤ q.2 ∧ q.1 - p.1 ≤ 4294967096) ts) :
    List.Chain' (fun x y : Sent =>
        y.now2 - x.now2 < 200 + (y.now1 - y.prev) + (y.now2 - y.now1))
      (sendTicks c ts s) := by
  induction ts generalizing c s with
  | nil => exact List.chain'_nil
  | cons t ts ih =>
    by_cases h : 200 ≤ sub32 (wrap32 t.1) s.lastHb
    · rw [sendTicks_cons_due c t ts s h]
      cases ts with
      | nil => simp [sendTicks]
      | cons q qs =>
        have hq := (List.chain'_cons.mp hts).1
        refine sendTicks_upper_after (q :: qs) t.2 t _ _ ?_ (Nat.le_refl _) (by simp)
          hq.1 (Nat.le_refl _) hts
        rw [loopHeartbeat_lastHb, if_pos h]
    · rw [sendTicks_cons_not_due c t ts s h]
      exact ih t.1 s (List.Chain'.tail hts)

/-- C10 (as the code has it): with the transport returning `ESP_OK` at once, a
pass of `loop` attempts a heartbeat exactly when `millis() - lastHb`, computed
in `uint32_t` from its first clock reading, is at least 200, and then sets
`lastHb` to a second clock reading.  For two consecutive transmissions `x`,
`y`, on the 32-bit clock and for every sequence of passes: the first reading
of `y` is at least 200 after the stamp of `x`, and the stamp of `y` is less
than 200 plus one tick (from the last reading of the pass before `y` to the
first reading of `y`) plus the delay between the two readings of `y` after the
stamp of `x`.  In real time, for readings made in order, including sequences
that cross the 2^32 wrap: the lower bound holds, and the upper bound holds
when consecutive passes start at most `2^32 - 200` apart. -/
theorem heartbeat_cadence (prev : Nat) (ts : List (Nat × Nat)) (s : State) :
    (∀ now1 now2 e, (loopHeartbeat now1 now2 e s).lastHb =
        (if 200 ≤ sub32 now1 s.lastHb then now2 else s.lastHb) ∧
      (transmitted (loopHeartbeat now1 now2 e s).trace).length =
        (transmitted s.trace).length + if 200 ≤ sub32 now1 s.lastHb then 1 else 0) ∧
    List.Chain' (fun x y : Sent =>
        200 ≤ sub32 (wrap32 y.now1) (wrap32 x.now2) ∧
        sub32 (wrap32 y.now2) (wrap32 x.now2) <
          200 + sub32 (wrap32 y.now1) (wrap32 y.prev) + sub32 (wrap32 y.now2) (wrap32 y.now1))
      (sendTicks prev ts s) ∧
    (List.Chain' (fun p q : Nat × Nat => p.2 ≤ q.1 ∧ q.1 ≤ q.2) ts →
      List.Chain' (fun x y : Sent => x.now2 + 200 ≤ y.now1 ∧ y.now1 ≤ y.now2)
        (sendTicks prev ts s)) ∧
    (List.Chain' (fun p q : Nat × Nat =>
        p.1 ≤ p.2 ∧ p.2 ≤ q.1 ∧ q.1 ≤ q.2 ∧ q.1 - p.1 ≤ 4294967096) ts →
      List.Chain' (fun x y : Sent =>
          y.now2 - x.now2 < 200 + (y.now1 - y.prev) + (y.now2 - y.now1))
        (sendTicks prev ts s)) :=
  ⟨fun now1 now2 e =>
      ⟨loopHeartbeat_lastHb now1 now2 e s, loopHeartbeat_transmitted now1 now2 e s⟩,
    sendTicks_clock ts prev s, sendTicks_lower ts prev s, sendTicks_upper ts prev s⟩

/-- C10 at a concrete sequence that crosses the wrap: passes 100 or 120 apart
from 4294967100 on, the second reading 1 later than the first in a pass that
transmits, transmit at 4294967100, at 4294967400 (clock reading 104) and at
4294967620 (clock reading 324). -/
theorem heartbeat_cadence_witness :
    sendTicks 4294967000 [(4294967100, 4294967101), (4294967200, 4294967200),
        (4294967300, 4294967300), (4294967400, 4294967401), (4294967500, 4294967500),
        (4294967620, 4294967621)] State.init =
      [⟨4294967000, 4294967100, 4294967101⟩, ⟨4294967300, 4294967400, 4294967401⟩,
        ⟨4294967500, 4294967620, 4294967621⟩] ∧
    List.Chain' (fun x y : Sent => x.now2 + 200 ≤ y.now1 ∧ y.now1 ≤ y.now2)
      (sendTicks 4294967000 [(4294967100, 4294967101), (4294967200, 4294967200),
        (4294967300, 4294967300), (4294967400, 4294967401), (4294967500, 4294967500),
        (4294967620, 4294967621)] State.init) ∧
    List.Chain' (fun x y : Sent =>
        y.now2 - x.now2 < 200 + (y.now1 - y.prev) + (y.now2 - y.now1))
      (sendTicks 4294967000 [(4294967100, 4294967101), (4294967200, 4294967200),
        (4294967300, 4294967300), (4294967400, 4294967401), (4294967500, 4294967500),
        (4294967620, 4294967621)] State.init) :=
  ⟨by decide,
   (heartbeat_cadence 4294967000 [(4294967100, 4294967101), (4294967200, 4294967200),
        (4294967300, 4294967300), (4294967400, 4294967401), (4294967500, 4294967500),
        (4294967620, 4294967621)] State.init).2.2.1 (by simp),
   (heartbeat_cadence 4294967000 [(4294967100, 4294967101), (4294967200, 4294967200),
        (4294967300, 4294967300), (4294967400, 4294967401), (4294967500, 4294967500),
        (4294967620, 4294967621)] State.init).2.2.2 (by simp)⟩

/-- C10 fails as stated: passes start every 10 from 1000 to 1210.  The pass at
1000 transmits and stamps `lastHb` with its second reading, 1001; the pass at
1200 finds `1200 - 1001 = 199 < 200` and does not transmit; the pass at 1210
transmits (second reading 1211).  The two transmissions are 210 apart, measured
between the passes and between the stamps alike, which is not less than the
period plus one tick, `200 + 10`. -/
theorem cadence_second_reading :
    sendTicks 990 [(1000, 1001), (1010, 1010), (1020, 1020), (1030, 1030), (1040, 1040),
        (1050, 1050), (1060, 1060), (1070, 1070), (1080, 1080), (1090, 1090), (1100, 1100),
        (1110, 1110), (1120, 1120), (1130, 1130), (1140, 1140), (1150, 1150), (1160, 1160),
        (1170, 1170), (1180, 1180), (1190, 1190), (1200, 1200), (1210, 1211)] State.init =
      [⟨990, 1000, 1001⟩, ⟨1200, 1210, 1211⟩] ∧
    ¬ (1210 - 1000 < 200 + (1210 - 1200)) ∧
    ¬ (1211 - 1001 < 200 + (1210 - 1200)) := by
  decide

/-- C2 fails as stated at the top of the counter range: with
`ackCount = 4294967295` a batch with `TX_SUCCESS` leaves `ackCount = 0`, and
likewise `txFailCount` and `busErrCount` at 4294967295 become 0 for a batch
with `TX_FAILED` and `BUS_ERROR`. -/
theorem alert_counters_wrap :
    (dumpAlerts idfMasks 0x2 { State.init with ackCount := 4294967295 }).ackCount = 0 ∧
    (dumpAlerts idfMasks (0x400 ||| 0x200)
      { State.init with txFailCount := 4294967295, busErrCount := 4294967295 }).txFailCount
      = 0 ∧
    (dumpAlerts idfMasks (0x400 ||| 0x200)
      { State.init with txFailCount := 4294967295, busErrCount := 4294967295 }).busErrCount
      = 0 := by
  decide

/-- C3 fails as stated at the top of the counter range: with
`txCount = 4294967295` one attempt that returns `ESP_OK` leaves `txCount = 0`,
not `4294967295 + 1`. -/
theorem txCount_wraps :
    (runAttempts [esp_err_t.ESP_OK] { State.init with txCount := 4294967295 }).txCount = 0 ∧
    (runAttempts [esp_err_t.ESP_OK] { State.init with txCount := 4294967295 }).txCount ≠
      4294967295 + [esp_err_t.ESP_OK].count esp_err_t.ESP_OK := by
  decide

end CanBroadcaster
